import Mathlib

/-!
# Verification of the scuba-tools gas blending core

A shallow embedding over `ℚ` of `src/realGas.ts` (real-gas compressibility
model) and `src/gasBlender.ts` (blending planner) from henrik242/scuba-tools.

JavaScript `number` values are modelled as exact rationals; every function is
translated statement-by-statement from the TypeScript source.  Bounded
`for`-loops with early `return` become fuel-based structural recursion with the
same iteration caps.  JavaScript `Infinity` sentinels (used only as "worse than
any real error" markers in grid searches) are modelled as `Option ℚ` with
`none` playing the role of `Infinity` in comparisons.  String rendering of
numbers uses `ℚ`'s `toString` (the numeric content is never relied upon by a
theorem; only fixed substrings of messages are).
-/

set_option maxRecDepth 16000
set_option maxHeartbeats 2000000

namespace ScubaTools

/-- JavaScript `Math.round`: round half toward positive infinity. -/
def jsRound (x : ℚ) : ℤ := ⌊x + 1/2⌋

/-- `roundTo` from gasBlender.ts: `Math.round(value * 10^d) / 10^d`. -/
def roundTo (x : ℚ) (d : ℕ) : ℚ := ((jsRound (x * 10 ^ d) : ℤ) : ℚ) / 10 ^ d

/-- `toPercentLabel` from gasBlender.ts. -/
def toPercentLabel (fraction : ℚ) : ℚ := roundTo (fraction * 100) 1

/-- `createMixLabel` from gasBlender.ts. -/
def createMixLabel (o2Fraction heFraction : ℚ) : String :=
  toString (toPercentLabel o2Fraction) ++ "/" ++ toString (toPercentLabel heFraction)

/-- `Z_NITROGEN` lookup table from realGas.ts: (pressure bar, Z-factor). -/
def Z_NITROGEN : List (ℚ × ℚ) :=
  [(0, 1.0), (10, 1.0017), (20, 1.0035), (30, 1.0053), (40, 1.0071),
   (50, 1.0088), (75, 1.0145), (100, 1.0251), (125, 1.0366), (150, 1.0482),
   (175, 1.0626), (200, 1.0771), (225, 1.0938), (250, 1.1108), (275, 1.1295),
   (300, 1.1485), (350, 1.189), (400, 1.2315)]

/-- `Z_OXYGEN` lookup table from realGas.ts. -/
def Z_OXYGEN : List (ℚ × ℚ) :=
  [(0, 1.0), (10, 0.9984), (20, 0.9968), (30, 0.9952), (40, 0.9937),
   (50, 0.9922), (75, 0.9864), (100, 0.9776), (125, 0.9706), (150, 0.9638),
   (175, 0.9585), (200, 0.9534), (225, 0.95), (250, 0.9468), (275, 0.9453),
   (300, 0.9439), (350, 0.9425), (400, 0.9428)]

/-- `Z_HELIUM` lookup table from realGas.ts. -/
def Z_HELIUM : List (ℚ × ℚ) :=
  [(0, 1.0), (10, 1.0044), (20, 1.0091), (30, 1.014), (40, 1.0188),
   (50, 1.0236), (75, 1.038), (100, 1.0548), (125, 1.0722), (150, 1.09),
   (175, 1.1091), (200, 1.1285), (225, 1.1488), (250, 1.1695), (275, 1.1909),
   (300, 1.2126), (350, 1.2574), (400, 1.3038)]

/-- The bracketing-scan loop of `interpolateZ` (realGas.ts lines 85-96):
scan consecutive pairs; on the first bracket `[p0, p1]` containing `pressure`
return the linear interpolation; if no bracket matches, fall back to `1.0`. -/
def interpLoop (pressure : ℚ) : List (ℚ × ℚ) → ℚ
  | a :: b :: rest =>
    if a.1 ≤ pressure ∧ pressure ≤ b.1 then
      a.2 + (pressure - a.1) / (b.1 - a.1) * (b.2 - a.2)
    else
      interpLoop pressure (b :: rest)
  | _ => 1

/-- `interpolateZ` from realGas.ts: clamp below the first and above the last
sample pressure, otherwise linearly interpolate between bracketing samples. -/
def interpolateZ (pressure : ℚ) (zTable : List (ℚ × ℚ)) : ℚ :=
  match zTable with
  | [] => 1
  | f :: rest =>
    if pressure ≤ f.1 then f.2
    else if (List.getLast (f :: rest) (List.cons_ne_nil f rest)).1 ≤ pressure then
      (List.getLast (f :: rest) (List.cons_ne_nil f rest)).2
    else
      interpLoop pressure (f :: rest)

/-- `getZNitrogen` from realGas.ts. -/
def getZNitrogen (pressure : ℚ) : ℚ := interpolateZ pressure Z_NITROGEN

/-- `getZOxygen` from realGas.ts. -/
def getZOxygen (pressure : ℚ) : ℚ := interpolateZ pressure Z_OXYGEN

/-- `getZHelium` from realGas.ts. -/
def getZHelium (pressure : ℚ) : ℚ := interpolateZ pressure Z_HELIUM

/-- `calculateMixtureZ` from realGas.ts (Kay's rule). -/
def calculateMixtureZ (o2Fraction heFraction pressure : ℚ) : ℚ :=
  let n2Fraction := max 0 (1 - o2Fraction - heFraction)
  o2Fraction * getZOxygen pressure + heFraction * getZHelium pressure +
    n2Fraction * getZNitrogen pressure

/-- Return type of `gasToMoleEquivalents`. -/
structure MoleEquivalents where
  o2 : ℚ
  he : ℚ
  n2 : ℚ
  total : ℚ
  deriving Repr, DecidableEq

/-- `gasToMoleEquivalents` from realGas.ts. -/
def gasToMoleEquivalents (o2Percent hePercent pressure : ℚ) : MoleEquivalents :=
  let o2Frac := o2Percent / 100
  let heFrac := hePercent / 100
  let n2Frac := max 0 (1 - o2Frac - heFrac)
  let zMix := calculateMixtureZ o2Frac heFrac pressure
  let totalMoleEquiv := pressure / zMix
  ⟨o2Frac * totalMoleEquiv, heFrac * totalMoleEquiv, n2Frac * totalMoleEquiv,
    totalMoleEquiv⟩

/-- Return type of `moleEquivalentsToGas`. -/
structure GasComposition where
  o2Percent : ℚ
  hePercent : ℚ
  n2Percent : ℚ
  deriving Repr, DecidableEq

/-- `moleEquivalentsToGas` from realGas.ts (the unused `targetPressure`
argument of the source is dropped; the source never reads it). -/
def moleEquivalentsToGas (o2Moles heMoles n2Moles : ℚ) : GasComposition :=
  let totalMoles := o2Moles + heMoles + n2Moles
  if totalMoles ≤ 0 then ⟨0, 0, 0⟩
  else ⟨o2Moles / totalMoles * 100, heMoles / totalMoles * 100,
        n2Moles / totalMoles * 100⟩

/-- Return type of `addGasToTank` / `drainTank`. -/
structure TankMoles where
  o2Moles : ℚ
  heMoles : ℚ
  n2Moles : ℚ
  newPressure : ℚ
  deriving Repr, DecidableEq

/-- The fixed-point iteration of `addGasToTank` (realGas.ts lines 442-504).
`fuel` is the remaining iteration budget (30 at entry); the fuel-exhausted
case is the "final calculation" after the source's `for` loop. -/
def addGasLoop (curO2 curHe curN2 : ℚ) (addO2Frac addHeFrac addN2Frac : ℚ)
    (targetPressure : ℚ) : ℕ → ℚ → TankMoles
  | 0, deltaTotalMoles =>
    ⟨curO2 + addO2Frac * deltaTotalMoles, curHe + addHeFrac * deltaTotalMoles,
     curN2 + addN2Frac * deltaTotalMoles, targetPressure⟩
  | fuel + 1, deltaTotalMoles =>
    let newO2Moles := curO2 + addO2Frac * deltaTotalMoles
    let newHeMoles := curHe + addHeFrac * deltaTotalMoles
    let newN2Moles := curN2 + addN2Frac * deltaTotalMoles
    let totalNewMoles := newO2Moles + newHeMoles + newN2Moles
    if totalNewMoles ≤ 0 then ⟨0, 0, 0, 0⟩
    else
      let zMix := calculateMixtureZ (newO2Moles / totalNewMoles)
        (newHeMoles / totalNewMoles) targetPressure
      let requiredTotalMoles := targetPressure / zMix
      if |totalNewMoles - requiredTotalMoles| < 1/1000 then
        ⟨newO2Moles, newHeMoles, newN2Moles, targetPressure⟩
      else
        let currentTotalMoles := curO2 + curHe + curN2
        let d := requiredTotalMoles - currentTotalMoles
        addGasLoop curO2 curHe curN2 addO2Frac addHeFrac addN2Frac
          targetPressure fuel (if d < 0 then 0 else d)

/-- `addGasToTank` from realGas.ts. -/
def addGasToTank (currentO2Moles currentHeMoles currentN2Moles currentPressure
    addGasO2Percent addGasHePercent addPressure : ℚ) : TankMoles :=
  if addPressure ≤ 0 then
    ⟨currentO2Moles, currentHeMoles, currentN2Moles, currentPressure⟩
  else
    let targetPressure := currentPressure + addPressure
    let addO2Frac := addGasO2Percent / 100
    let addHeFrac := addGasHePercent / 100
    let addN2Frac := max 0 (1 - addO2Frac - addHeFrac)
    addGasLoop currentO2Moles currentHeMoles currentN2Moles
      addO2Frac addHeFrac addN2Frac targetPressure 30 addPressure

/-- `drainTank` from realGas.ts: proportional reduction. -/
def drainTank (currentO2Moles currentHeMoles currentN2Moles currentPressure
    targetPressure : ℚ) : TankMoles :=
  if currentPressure ≤ 0 then
    ⟨currentO2Moles, currentHeMoles, currentN2Moles, 0⟩
  else
    let ratio := targetPressure / currentPressure
    ⟨currentO2Moles * ratio, currentHeMoles * ratio, currentN2Moles * ratio,
      targetPressure⟩

/-- The refinement loop of `solveForAddPressure` (realGas.ts lines 279-307). -/
def solveForAddPressureLoop (cO2 cHe cN2 cP aO2 aHe targetTotal cTotal dM : ℚ) :
    ℕ → ℚ → ℚ
  | 0, addPressure => addPressure
  | fuel + 1, addPressure =>
    let result := addGasToTank cO2 cHe cN2 cP aO2 aHe addPressure
    let resultTotal := result.o2Moles + result.heMoles + result.n2Moles
    if |resultTotal - targetTotal| < 1/100 then addPressure
    else
      let adjustmentFactor := dM / (resultTotal - cTotal)
      let aP := addPressure * adjustmentFactor
      solveForAddPressureLoop cO2 cHe cN2 cP aO2 aHe targetTotal cTotal dM fuel
        (max (1/100) (min aP 500))

/-- `solveForAddPressure` from realGas.ts. -/
def solveForAddPressure (currentO2Moles currentHeMoles currentN2Moles
    currentPressure addGasO2Percent addGasHePercent targetTotalMoles : ℚ) : ℚ :=
  let currentTotalMoles := currentO2Moles + currentHeMoles + currentN2Moles
  let deltaMoles := targetTotalMoles - currentTotalMoles
  if deltaMoles ≤ 0 then 0
  else
    solveForAddPressureLoop currentO2Moles currentHeMoles currentN2Moles
      currentPressure addGasO2Percent addGasHePercent targetTotalMoles
      currentTotalMoles deltaMoles 30 (deltaMoles * 1)

/-- The `'o2' | 'he' | 'n2'` component selector of
`solveForComponentAddPressure`. -/
inductive ComponentSel where
  | o2
  | he
  | n2
  deriving Repr, DecidableEq

/-- Project the selected component out of an `addGasToTank` result. -/
def TankMoles.component (r : TankMoles) : ComponentSel → ℚ
  | .o2 => r.o2Moles
  | .he => r.heMoles
  | .n2 => r.n2Moles

/-- The refinement loop of `solveForComponentAddPressure`
(realGas.ts lines 366-395). -/
def solveForComponentLoop (cO2 cHe cN2 cP aO2 aHe targetComponent
    currentComponent dM : ℚ) (component : ComponentSel) : ℕ → ℚ → ℚ
  | 0, addPressure => addPressure
  | fuel + 1, addPressure =>
    let result := addGasToTank cO2 cHe cN2 cP aO2 aHe addPressure
    let resultComponent := result.component component
    if |resultComponent - targetComponent| < 1/100 then addPressure
    else
      let adjustmentFactor := dM / (resultComponent - currentComponent)
      let aP := addPressure * adjustmentFactor
      solveForComponentLoop cO2 cHe cN2 cP aO2 aHe targetComponent
        currentComponent dM component fuel (max (1/100) (min aP 500))

/-- `solveForComponentAddPressure` from realGas.ts. -/
def solveForComponentAddPressure (currentO2Moles currentHeMoles currentN2Moles
    currentPressure addGasO2Percent addGasHePercent targetComponentMoles : ℚ)
    (component : ComponentSel) : ℚ :=
  let addGasN2Percent := max 0 (100 - addGasO2Percent - addGasHePercent)
  let currentComponent :=
    match component with
    | .o2 => currentO2Moles
    | .he => currentHeMoles
    | .n2 => currentN2Moles
  let deltaMoles := targetComponentMoles - currentComponent
  if deltaMoles ≤ 0 then 0
  else
    let componentFraction :=
      match component with
      | .o2 => addGasO2Percent / 100
      | .he => addGasHePercent / 100
      | .n2 => addGasN2Percent / 100
    if componentFraction ≤ 1/1000 then 0
    else
      solveForComponentLoop currentO2Moles currentHeMoles currentN2Moles
        currentPressure addGasO2Percent addGasHePercent targetComponentMoles
        currentComponent deltaMoles component 30 (deltaMoles / componentFraction)

/-- `Gas` from gasBlender.ts (the optional `editable` UI flag is never read by
the planner and is omitted). -/
structure Gas where
  name : String
  o2 : ℚ
  he : ℚ
  deriving Repr, DecidableEq

/-- `TankState` from gasBlender.ts. -/
structure TankState where
  volume : ℚ
  o2 : ℚ
  he : ℚ
  pressure : ℚ
  deriving Repr, DecidableEq

/-- `TargetGas` from gasBlender.ts. -/
structure TargetGas where
  o2 : ℚ
  he : ℚ
  pressure : ℚ
  deriving Repr, DecidableEq

/-- `BlendingStep` from gasBlender.ts. -/
structure BlendingStep where
  action : String
  gas : Option String
  fromPressure : ℚ
  toPressure : ℚ
  addedPressure : Option ℚ
  drainedPressure : Option ℚ
  currentMix : String
  newMix : String
  addedVolume : Option ℚ
  deriving Repr, DecidableEq

/-- The `finalMix` record of `BlendingResult`. -/
structure FinalMix where
  o2 : ℚ
  he : ℚ
  pressure : ℚ
  deriving Repr, DecidableEq

/-- `BlendingResult` from gasBlender.ts; `gasUsage` (a JS string-keyed object)
is an insertion-ordered association list. -/
structure BlendingResult where
  steps : List BlendingStep
  finalMix : FinalMix
  gasUsage : List (String × ℚ)
  success : Bool
  error : Option String
  deriving Repr, DecidableEq

/-- The planner's mutable working state (`currentPressure`,
`currentO2Moles`, `currentHeMoles`, `currentN2Moles`, `steps`, `gasUsage`
in gasBlender.ts), plus the constant tank volume. -/
structure BlendState where
  volume : ℚ
  pressure : ℚ
  o2M : ℚ
  heM : ℚ
  n2M : ℚ
  steps : List BlendingStep
  gasUsage : List (String × ℚ)
  deriving Repr, DecidableEq

/-- Result of the planner's `getFractions` closure. -/
structure Fractions where
  o2 : ℚ
  he : ℚ
  n2 : ℚ
  deriving Repr, DecidableEq

/-- `getFractions` from gasBlender.ts. -/
def getFractions (st : BlendState) : Fractions :=
  if st.pressure ≤ 1/10000 then ⟨0, 0, 0⟩
  else
    let gas := moleEquivalentsToGas st.o2M st.heM st.n2M
    ⟨gas.o2Percent / 100, gas.hePercent / 100, gas.n2Percent / 100⟩

/-- `<` on error values where `none` models the JavaScript `Infinity`
sentinel (`Infinity < Infinity` is false; `x < Infinity` is true). -/
def errLt : Option ℚ → Option ℚ → Bool
  | none, _ => false
  | some _, none => true
  | some a, some b => decide (a < b)

/-- JS `Math.min(...list)` for the nonempty lists it is applied to
(the default for `[]` is never used: every call site guards nonemptiness). -/
def jsMinList : List ℚ → ℚ
  | [] => 100
  | x :: xs => xs.foldl min x

/-- JS `Math.max(...list)` for the nonempty lists it is applied to. -/
def jsMaxList : List ℚ → ℚ
  | [] => 0
  | x :: xs => xs.foldl max x

/-- Stable insertion into a sorted list (used to model the stable
`Array.prototype.sort`). -/
def insertSorted (le : Gas → Gas → Bool) (x : Gas) : List Gas → List Gas
  | [] => [x]
  | y :: ys => if le x y then x :: y :: ys else y :: insertSorted le x ys

/-- Stable sort by a total `Bool` comparison (models JS stable sort). -/
def sortGasBy (le : Gas → Gas → Bool) : List Gas → List Gas
  | [] => []
  | x :: xs => insertSorted le x (sortGasBy le xs)

/-- `pureHe` classification: `find g.he > 95 && g.o2 < 5`. -/
def findPureHe (gases : List Gas) : Option Gas :=
  gases.find? (fun g => decide (95 < g.he ∧ g.o2 < 5))

/-- `pureO2` classification: `find g.o2 > 95 && g.he < 5`. -/
def findPureO2 (gases : List Gas) : Option Gas :=
  gases.find? (fun g => decide (95 < g.o2 ∧ g.he < 5))

/-- `airGases` classification: `he < 5 && 19 ≤ o2 ≤ 40`, sorted ascending
by o2. -/
def airGasesOf (gases : List Gas) : List Gas :=
  sortGasBy (fun a b => decide (a.o2 ≤ b.o2))
    (gases.filter (fun g => decide (g.he < 5 ∧ 19 ≤ g.o2 ∧ g.o2 ≤ 40)))

/-- `trimixGases` classification: `he > 30`, sorted descending by he. -/
def trimixGasesOf (gases : List Gas) : List Gas :=
  sortGasBy (fun a b => decide (b.he ≤ a.he))
    (gases.filter (fun g => decide (30 < g.he)))

/-- `heGasForCalc = pureHe || trimixGases[0]`. -/
def heGasForCalcOf (gases : List Gas) : Option Gas :=
  match findPureHe gases with
  | some g => some g
  | none => (trimixGasesOf gases).head?

/-- Accumulate into the `gasUsage` record (JS object keyed by gas name,
insertion-ordered). -/
def addUsage : List (String × ℚ) → String → ℚ → List (String × ℚ)
  | [], n, v => [(n, v)]
  | (m, x) :: rest, n, v =>
    if m = n then (m, x + v) :: rest else (m, x) :: addUsage rest n v

/-- `DrainSimulationParams` from gasBlender.ts. -/
structure DrainSimulationParams where
  currentO2Moles : ℚ
  currentHeMoles : ℚ
  currentN2Moles : ℚ
  currentPressure : ℚ
  drainPressure : ℚ
  heGas : Gas
  topGasO2 : ℚ
  targetHeMoles : ℚ
  targetO2Pct : ℚ
  targetHePct : ℚ
  targetPressure : ℚ

/-- `simulateBlendWithDrain` from gasBlender.ts; `none` is the
`Infinity` ("not viable") return. -/
def simulateBlendWithDrain (p : DrainSimulationParams) : Option ℚ :=
  let drainedState := drainTank p.currentO2Moles p.currentHeMoles
    p.currentN2Moles p.currentPressure p.drainPressure
  let heToAdd := solveForComponentAddPressure drainedState.o2Moles
    drainedState.heMoles drainedState.n2Moles drainedState.newPressure
    p.heGas.o2 p.heGas.he p.targetHeMoles ComponentSel.he
  if heToAdd < 0 ∨ p.targetPressure < heToAdd then none
  else
    let withHe := addGasToTank drainedState.o2Moles drainedState.heMoles
      drainedState.n2Moles drainedState.newPressure p.heGas.o2 p.heGas.he heToAdd
    let remainingP := p.targetPressure - withHe.newPressure
    if remainingP ≤ 1/10 then none
    else
      let final := addGasToTank withHe.o2Moles withHe.heMoles withHe.n2Moles
        withHe.newPressure p.topGasO2 0 remainingP
      let finalComp := moleEquivalentsToGas final.o2Moles final.heMoles
        final.n2Moles
      some (|finalComp.o2Percent - p.targetO2Pct| +
            |finalComp.hePercent - p.targetHePct|)

/-- `recordDrain` from gasBlender.ts. -/
def recordDrain (st : BlendState) (toPressure : ℚ) (forceComplete : Bool) :
    BlendState :=
  if st.pressure ≤ toPressure then st
  else
    let previousPressure := st.pressure
    let previousFractions := getFractions st
    let newPressure := if forceComplete then 0 else toPressure
    let drained := drainTank st.o2M st.heM st.n2M st.pressure newPressure
    let st1 : BlendState := ⟨st.volume, drained.newPressure, drained.o2Moles,
      drained.heMoles, drained.n2Moles, st.steps, st.gasUsage⟩
    let updatedFractions := getFractions st1
    let step : BlendingStep :=
      ⟨(if forceComplete then "Drain tank completely"
        else "Drain to " ++ toString (roundTo newPressure 1) ++ " bar"),
       none, roundTo previousPressure 2, roundTo newPressure 2, none,
       some (roundTo (previousPressure - newPressure) 2),
       createMixLabel previousFractions.o2 previousFractions.he,
       createMixLabel updatedFractions.o2 updatedFractions.he, none⟩
    ⟨st.volume, st1.pressure, st1.o2M, st1.heM, st1.n2M,
      st.steps ++ [step], st.gasUsage⟩

/-- `recordGasAddition` from gasBlender.ts. -/
def recordGasAddition (st : BlendState) (gas : Gas) (amount : ℚ)
    (label : String) (decimals : ℕ) : BlendState :=
  let roundedAmount := roundTo amount decimals
  if roundedAmount ≤ 0 then st
  else
    let previousPressure := st.pressure
    let previousFractions := getFractions st
    let added := addGasToTank st.o2M st.heM st.n2M st.pressure gas.o2 gas.he
      roundedAmount
    let st1 : BlendState := ⟨st.volume, added.newPressure, added.o2Moles,
      added.heMoles, added.n2Moles, st.steps, st.gasUsage⟩
    let updatedFractions := getFractions st1
    let addedVolume := roundTo (roundedAmount * st.volume) 1
    let step : BlendingStep :=
      ⟨label, some gas.name, roundTo previousPressure 2,
       roundTo st1.pressure 2, some roundedAmount, none,
       createMixLabel previousFractions.o2 previousFractions.he,
       createMixLabel updatedFractions.o2 updatedFractions.he,
       some addedVolume⟩
    ⟨st.volume, st1.pressure, st1.o2M, st1.heM, st1.n2M,
      st.steps ++ [step], addUsage st.gasUsage gas.name addedVolume⟩

/-- The drain-ratio grid search of drain trigger (b)
(gasBlender.ts lines 452-484): ratios 0, 0.05, …, 0.95; state is
(best error, best drain pressure). -/
def drainGridSearchB (st : BlendState) (heGas : Gas) (topGasO2 : ℚ)
    (targetHeMoles targetO2Pct targetHePct targetPressure : ℚ) :
    Option ℚ × ℚ :=
  (List.range 20).foldl
    (fun acc k =>
      let testDrainP := st.pressure * ((k : ℚ) / 20)
      let error := simulateBlendWithDrain ⟨st.o2M, st.heM, st.n2M, st.pressure,
        testDrainP, heGas, topGasO2, targetHeMoles, targetO2Pct, targetHePct,
        targetPressure⟩
      if errLt error acc.1 then (error, testDrainP) else acc)
    (none, st.pressure * (1/2))

/-- The drain-ratio grid search of drain trigger (e)
(gasBlender.ts lines 593-622); the state also carries the
`foundViableSolution` flag. -/
def drainGridSearchE (st : BlendState) (heGas : Gas) (topGasO2 : ℚ)
    (targetHeMoles targetO2Pct targetHePct targetPressure : ℚ)
    (initDrainP : ℚ) : Option ℚ × ℚ × Bool :=
  (List.range 20).foldl
    (fun acc k =>
      let testDrainP := st.pressure * ((k : ℚ) / 20)
      let error := simulateBlendWithDrain ⟨st.o2M, st.heM, st.n2M, st.pressure,
        testDrainP, heGas, topGasO2, targetHeMoles, targetO2Pct, targetHePct,
        targetPressure⟩
      if errLt error acc.1 then
        (error, testDrainP, acc.2.2 || errLt error (some 2))
      else acc)
    (none, initDrainP, false)

/-- Drain trigger (a) (gasBlender.ts lines 371-397): some component is in
excess by more than 0.5 mole-equivalents. -/
def trigA (st : BlendState) (tgt : MoleEquivalents) (fractions : Fractions)
    (s : Bool × ℚ) : Bool × ℚ :=
  let deltaHe := tgt.he - st.heM
  let deltaN2 := tgt.n2 - st.n2M
  let deltaO2 := tgt.o2 - st.o2M
  let totalMoles := st.o2M + st.heM + st.n2M
  if deltaHe < -(1/2) ∨ deltaN2 < -(1/2) ∨ deltaO2 < -(1/2) then
    let d1 := if deltaHe < -(1/2) ∧ 1/1000 < fractions.he then
        min s.2 ((tgt.he / fractions.he) * (st.pressure / totalMoles))
      else s.2
    let d2 := if deltaO2 < -(1/2) ∧ 1/1000 < fractions.o2 then
        min d1 ((tgt.o2 / fractions.o2) * (st.pressure / totalMoles))
      else d1
    let d3 := if deltaN2 < -(1/2) ∧ 1/1000 < fractions.n2 then
        min d2 ((tgt.n2 / fractions.n2) * (st.pressure / totalMoles))
      else d2
    (true, d3)
  else s

/-- Drain trigger (b) (gasBlender.ts lines 399-489): current O2% exceeds the
target by more than 1.0 and topping with the lowest-O2 gas still overshoots. -/
def trigB (st : BlendState) (t : TargetGas) (tgt : MoleEquivalents)
    (fractions : Fractions) (pureHe : Option Gas) (airGases trimixGases : List Gas)
    (s : Bool × ℚ) : Bool × ℚ :=
  let targetO2Pct := t.o2
  let targetHePct := t.he
  let currentO2Pct := fractions.o2 * 100
  if targetO2Pct + 1 < currentO2Pct then
    let lowestO2Gas :=
      if airGases = [] then (if pureHe.isSome then 0 else 21)
      else jsMinList (airGases.map Gas.o2)
    let remainingPressure := t.pressure - st.pressure
    if 0 < remainingPressure then
      let simulated := addGasToTank st.o2M st.heM st.n2M st.pressure
        lowestO2Gas 0 remainingPressure
      let simulatedComp := moleEquivalentsToGas simulated.o2Moles
        simulated.heMoles simulated.n2Moles
      if targetO2Pct + 1/2 < simulatedComp.o2Percent then
        let heGasB : Gas := ⟨"He",
          (if pureHe.isSome then 0 else (trimixGases.head?.map Gas.o2).getD 0),
          (if pureHe.isSome then 100 else (trimixGases.head?.map Gas.he).getD 0)⟩
        let best := drainGridSearchB st heGasB lowestO2Gas tgt.he
          targetO2Pct targetHePct t.pressure
        (true, min s.2 best.2)
      else s
    else s
  else s

/-- Drain trigger (c) (gasBlender.ts lines 491-502): current He% exceeds the
target by more than 1.0 (and pressure > 1 bar). -/
def trigC (st : BlendState) (t : TargetGas) (tgt : MoleEquivalents)
    (fractions : Fractions) (s : Bool × ℚ) : Bool × ℚ :=
  let currentHePct := fractions.he * 100
  if t.he + 1 < currentHePct ∧ 1 < st.pressure then
    let targetRatio := ((t.he / 100) * (tgt.o2 + tgt.he + tgt.n2)) /
      max st.heM (1/1000)
    (true, min s.2 (st.pressure * min targetRatio (9/10)))
  else s

/-- Drain trigger (d) (gasBlender.ts lines 504-514): helium must be added but
the tank is within 10 bar of target pressure. -/
def trigD (st : BlendState) (t : TargetGas) (tgt : MoleEquivalents)
    (heGasForCalc : Option Gas) (s : Bool × ℚ) : Bool × ℚ :=
  let deltaHe := tgt.he - st.heM
  if 1/2 < deltaHe ∧ heGasForCalc.isSome ∧ t.pressure - 10 ≤ st.pressure then
    (true, min s.2 (t.pressure * (1/2)))
  else s

/-- Drain trigger (e), the comprehensive drain search for limited gas
catalogs (gasBlender.ts lines 516-630). -/
def trigE (st : BlendState) (t : TargetGas) (tgt : MoleEquivalents)
    (fractions : Fractions) (pureHe pureO2 : Option Gas) (airGases : List Gas)
    (heGasForCalc : Option Gas) (s : Bool × ℚ) : Bool × ℚ :=
  let deltaHe := tgt.he - st.heM
  let currentO2Pct := fractions.o2 * 100
  let hasIdealGases := pureHe.isSome ∧ pureO2.isSome
  let hasLimitedGases := ¬hasIdealGases ∧
    (1/2 < deltaHe ∨ currentO2Pct < t.o2 - 1)
  match heGasForCalc with
  | none => s
  | some hg =>
    if hasLimitedGases then
      let highestO2Gas :=
        if airGases = [] then (if pureO2.isSome then 100 else 21)
        else jsMaxList (airGases.map Gas.o2)
      let noDrainError : Option ℚ :=
        if 1/2 < deltaHe then
          let heToAdd := solveForComponentAddPressure st.o2M st.heM st.n2M
            st.pressure hg.o2 hg.he tgt.he ComponentSel.he
          if 0 ≤ heToAdd ∧ heToAdd ≤ t.pressure ∧
              st.pressure + heToAdd ≤ t.pressure then
            let withHe := addGasToTank st.o2M st.heM st.n2M st.pressure
              hg.o2 hg.he heToAdd
            let remainingP := t.pressure - withHe.newPressure
            if 1/10 < remainingP then
              let final := addGasToTank withHe.o2Moles withHe.heMoles
                withHe.n2Moles withHe.newPressure highestO2Gas 0 remainingP
              let finalComp := moleEquivalentsToGas final.o2Moles
                final.heMoles final.n2Moles
              some (|finalComp.o2Percent - t.o2| +
                    |finalComp.hePercent - t.he|)
            else none
          else none
        else none
      if errLt (some 2) noDrainError then
        let g := drainGridSearchE st hg highestO2Gas tgt.he t.o2
          t.he t.pressure s.2
        if g.2.2 ∧ errLt g.1 noDrainError then (true, min s.2 g.2.1) else s
      else s
    else s

/-- The planner's drain-decision block (gasBlender.ts lines 355-630):
computes `(needsDrain, drainToPressure)` from the initial working state by
applying triggers (a)-(e) in source order, each taking the minimum (most
conservative) drain bound. -/
def drainDecision (st : BlendState) (t : TargetGas) (tgt : MoleEquivalents)
    (gases : List Gas) : Bool × ℚ :=
  let fractions := getFractions st
  let pureHe := findPureHe gases
  let pureO2 := findPureO2 gases
  let airGases := airGasesOf gases
  let trimixGases := trimixGasesOf gases
  let heGasForCalc := heGasForCalcOf gases
  trigE st t tgt fractions pureHe pureO2 airGases heGasForCalc
    (trigD st t tgt heGasForCalc
      (trigC st t tgt fractions
        (trigB st t tgt fractions pureHe airGases trimixGases
          (trigA st tgt fractions (false, st.pressure)))))

/-- Drain execution (gasBlender.ts lines 632-645). -/
def executeDrain (st : BlendState) (dd : Bool × ℚ) : BlendState :=
  if dd.1 then
    let targetDrainPressure := roundTo (max 0 dd.2) 2
    let drainedAmount := st.pressure - targetDrainPressure
    if 1/2 < drainedAmount ∧ 1/2 < targetDrainPressure then
      recordDrain st targetDrainPressure false
    else if 1/2 < drainedAmount then recordDrain st 0 true
    else st
  else st

/-- STEP 1, helium addition (gasBlender.ts lines 647-665). -/
def heliumStage (st : BlendState) (tgt : MoleEquivalents) (gases : List Gas) :
    BlendState :=
  let deltaHe := tgt.he - st.heM
  if 1/10 < deltaHe then
    match heGasForCalcOf gases with
    | some heGas =>
      if 0 < heGas.he then
        let heToAdd := solveForComponentAddPressure st.o2M st.heM st.n2M
          st.pressure heGas.o2 heGas.he tgt.he ComponentSel.he
        recordGasAddition st heGas heToAdd ("Add " ++ heGas.name) 2
      else st
    | none => st
  else st

/-- The two-gas (pure O2 + diluent) split search of the topping stage
(gasBlender.ts lines 727-820): 51 ratios 0/50 … 50/50; state is
(best error, best O2 pressure, best diluent pressure). -/
def twoGasSearch (st : BlendState) (t : TargetGas) (tgt : MoleEquivalents)
    (airForBlending : Gas) : Option ℚ × ℚ × ℚ :=
  (List.range 51).foldl
    (fun acc i =>
      let ratio := (i : ℚ) / 50
      let totalMolesToAdd := tgt.o2 + tgt.n2 - st.o2M - st.n2M
      if totalMolesToAdd ≤ 0 then acc
      else
        let molesToAddAsO2 := totalMolesToAdd * ratio
        let molesToAddAsAir := totalMolesToAdd * (1 - ratio)
        let o2P := if 0 < molesToAddAsO2 then
            solveForAddPressure st.o2M st.heM st.n2M st.pressure 100 0
              (st.o2M + st.heM + st.n2M + molesToAddAsO2)
          else 0
        let sim1 := if 0 < o2P then
            addGasToTank st.o2M st.heM st.n2M st.pressure 100 0 o2P
          else (⟨st.o2M, st.heM, st.n2M, st.pressure⟩ : TankMoles)
        let airP := if 0 < molesToAddAsAir then
            solveForAddPressure sim1.o2Moles sim1.heMoles sim1.n2Moles
              sim1.newPressure airForBlending.o2 airForBlending.he
              (sim1.o2Moles + sim1.heMoles + sim1.n2Moles + molesToAddAsAir)
          else 0
        let sim2 := if 0 < airP then
            addGasToTank sim1.o2Moles sim1.heMoles sim1.n2Moles
              sim1.newPressure airForBlending.o2 airForBlending.he airP
          else sim1
        let totalErr := |tgt.o2 - sim2.o2Moles| + |tgt.n2 - sim2.n2Moles| +
          |t.pressure - sim2.newPressure| * (1/100)
        if errLt (some totalErr) acc.1 then (some totalErr, o2P, airP) else acc)
    (none, 0, 0)

/-- STEP 2, topping to target pressure (gasBlender.ts lines 667-843). -/
def toppingStage (st : BlendState) (t : TargetGas) (tgt : MoleEquivalents)
    (gases : List Gas) : BlendState :=
  let remainingPressure := t.pressure - st.pressure
  if 1/10 < remainingPressure then
    let pureO2 := findPureO2 gases
    let airGases := airGasesOf gases
    match pureO2, airGases with
    | some pO2, [] =>
      let o2ToAdd := roundTo remainingPressure 1
      if 1/10 < o2ToAdd then
        recordGasAddition st pO2 o2ToAdd ("Add " ++ pO2.name) 1
      else st
    | _, a0 :: rest =>
      let best := (a0 :: rest).foldl
        (fun acc airGas =>
          let testAdded := addGasToTank st.o2M st.heM st.n2M st.pressure
            airGas.o2 airGas.he remainingPressure
          let testGas := moleEquivalentsToGas testAdded.o2Moles
            testAdded.heMoles testAdded.n2Moles
          let diff := |testGas.o2Percent - t.o2| + |testGas.hePercent - t.he|
          if errLt (some diff) acc.2 then (airGas, some diff) else acc)
        (a0, (none : Option ℚ))
      let bestAirGas :=
        if pureO2.isSome ∧ errLt (some (7/10)) best.2 then
          rest.foldl (fun lowest cur =>
            if cur.o2 < lowest.o2 then cur else lowest) a0
        else best.1
      match pureO2 with
      | some pO2 =>
        if 10 < |bestAirGas.o2 - pO2.o2| then
          let tg := twoGasSearch st t tgt bestAirGas
          let st1 := if 1/10 < tg.2.1 then
              recordGasAddition st pO2 tg.2.1 ("Add " ++ pO2.name) 1
            else st
          if 1/10 < tg.2.2 then
            recordGasAddition st1 bestAirGas tg.2.2
              ("Top up with " ++ bestAirGas.name) 1
          else st1
        else
          let topPressure := roundTo remainingPressure 1
          if 1/10 < topPressure then
            recordGasAddition st bestAirGas topPressure
              ("Add " ++ bestAirGas.name) 1
          else st
      | none =>
        let topPressure := roundTo remainingPressure 1
        if 1/10 < topPressure then
          recordGasAddition st bestAirGas topPressure
            ("Add " ++ bestAirGas.name) 1
        else st
    | none, [] => st
  else st

/-- The planner body of `calculateBlendingSteps` after input validation:
initial state, drain decision + execution, helium stage, topping stage. -/
def planner (startingGas : TankState) (targetGas : TargetGas)
    (availableGases : List Gas) : BlendState :=
  let currentMoles := gasToMoleEquivalents startingGas.o2 startingGas.he
    startingGas.pressure
  let targetMoles := gasToMoleEquivalents targetGas.o2 targetGas.he
    targetGas.pressure
  let st0 : BlendState := ⟨startingGas.volume, startingGas.pressure,
    currentMoles.o2, currentMoles.he, currentMoles.n2, [], []⟩
  let dd := drainDecision st0 targetGas targetMoles availableGases
  let st1 := executeDrain st0 dd
  let st2 := heliumStage st1 targetMoles availableGases
  toppingStage st2 targetGas targetMoles availableGases

/-- The final mixture derived from the working state
(gasBlender.ts lines 845-851). -/
def blendFinalMix (st : BlendState) : FinalMix :=
  let f := getFractions st
  ⟨toPercentLabel f.o2, toPercentLabel f.he, roundTo st.pressure 1⟩

/-- Leading part of the invalid-target error message. -/
def exceedsMsgHead (o2 he : ℚ) : String :=
  "Target O₂ (" ++ toString o2 ++ "%) + He (" ++ toString he ++ "%) "

/-- The tolerance-failure error message (gasBlender.ts line 865). -/
def unableMsg (m : FinalMix) : String :=
  "Unable to reach target mix accurately. Final: " ++ toString m.o2 ++ "/" ++
    toString m.he ++ " at " ++ toString m.pressure ++
    " bar. Try adjusting available gases."

/-- `calculateBlendingSteps` from gasBlender.ts.  The source's
`Number.isFinite` guards are identically true in the rational model. -/
def calculateBlendingSteps (startingGas : TankState) (targetGas : TargetGas)
    (availableGases : List Gas) : BlendingResult :=
  if 100 < targetGas.o2 + targetGas.he then
    ⟨[], ⟨startingGas.o2, startingGas.he, startingGas.pressure⟩, [], false,
      some (exceedsMsgHead targetGas.o2 targetGas.he ++ "exceeds 100%")⟩
  else
    let st := planner startingGas targetGas availableGases
    let finalMix := blendFinalMix st
    let o2Error := |finalMix.o2 - targetGas.o2|
    let heError := |finalMix.he - targetGas.he|
    let pressureError := |finalMix.pressure - targetGas.pressure|
    if 1 < o2Error ∨ 1 < heError ∨ 2 < pressureError then
      ⟨st.steps, finalMix, st.gasUsage, false, some (unableMsg finalMix)⟩
    else
      ⟨st.steps, finalMix, st.gasUsage, true, none⟩

/-- A Z-table sorted strictly by pressure. -/
def pressureSorted (l : List (ℚ × ℚ)) : Prop :=
  List.Pairwise (fun u v => u.1 < v.1) l

/-- A Z-table sorted strictly by pressure with strictly increasing Z. -/
def tableInc (l : List (ℚ × ℚ)) : Prop :=
  List.Pairwise (fun u v => u.1 < v.1 ∧ u.2 < v.2) l

/-- A Z-table sorted strictly by pressure with strictly decreasing Z. -/
def tableDec (l : List (ℚ × ℚ)) : Prop :=
  List.Pairwise (fun u v => u.1 < v.1 ∧ v.2 < u.2) l

/-- The strictly-decreasing initial segment of `Z_OXYGEN`, up to 350 bar
(the final table entry, at 400 bar, breaks monotonicity: 0.9428 > 0.9425). -/
def Z_OXYGEN_core : List (ℚ × ℚ) :=
  [(0, 1.0), (10, 0.9984), (20, 0.9968), (30, 0.9952), (40, 0.9937),
   (50, 0.9922), (75, 0.9864), (100, 0.9776), (125, 0.9706), (150, 0.9638),
   (175, 0.9585), (200, 0.9534), (225, 0.95), (250, 0.9468), (275, 0.9453),
   (300, 0.9439), (350, 0.9425)]

/-! ## Helper lemmas -/

theorem Z_OXYGEN_decomp : Z_OXYGEN = Z_OXYGEN_core ++ [(400, 0.9428)] := rfl

theorem interpLoop_cons_cons (p : ℚ) (a b : ℚ × ℚ) (rest : List (ℚ × ℚ)) :
    interpLoop p (a :: b :: rest) =
      if a.1 ≤ p ∧ p ≤ b.1 then a.2 + (p - a.1) / (b.1 - a.1) * (b.2 - a.2)
      else interpLoop p (b :: rest) := rfl

theorem interpolateZ_cons (p : ℚ) (f : ℚ × ℚ) (rest : List (ℚ × ℚ)) :
    interpolateZ p (f :: rest) =
      if p ≤ f.1 then f.2
      else if (List.getLast (f :: rest) (List.cons_ne_nil f rest)).1 ≤ p then
        (List.getLast (f :: rest) (List.cons_ne_nil f rest)).2
      else interpLoop p (f :: rest) := rfl

theorem jsRound_abs_le (x : ℚ) : |(jsRound x : ℚ) - x| ≤ 1/2 := by
  rw [abs_le]
  unfold jsRound
  have h1 := Int.floor_le (x + 1/2)
  have h2 := Int.lt_floor_add_one (x + 1/2)
  constructor <;> [skip; skip] <;> push_cast at h1 h2 ⊢ <;> linarith

theorem roundTo_one_abs_le (x : ℚ) : |roundTo x 1 - x| ≤ 1/20 := by
  have h := jsRound_abs_le (x * 10 ^ 1)
  unfold roundTo
  rw [abs_le] at h ⊢
  norm_num at h ⊢
  constructor <;> linarith

theorem interpLoop_bounds (lo hi : ℚ) (hlo : lo ≤ 1) (hhi : 1 ≤ hi) :
    ∀ (l : List (ℚ × ℚ)), (∀ x ∈ l, lo ≤ x.2 ∧ x.2 ≤ hi) → ∀ p : ℚ,
      lo ≤ interpLoop p l ∧ interpLoop p l ≤ hi
  | [] => by intro _ p; exact ⟨hlo, hhi⟩
  | [a] => by intro _ p; exact ⟨hlo, hhi⟩
  | a :: b :: rest => by
    intro hmem p
    have hab := hmem a (by simp)
    have hbb := hmem b (by simp)
    by_cases h : a.1 ≤ p ∧ p ≤ b.1
    · simp only [interpLoop, if_pos h]
      by_cases hd : b.1 - a.1 = 0
      · rw [hd, div_zero, zero_mul, add_zero]; exact hab
      · have hle : (0:ℚ) ≤ b.1 - a.1 := by linarith [h.1, h.2]
        have hlt : 0 < b.1 - a.1 := lt_of_le_of_ne hle (Ne.symm hd)
        have ht0 : 0 ≤ (p - a.1) / (b.1 - a.1) :=
          div_nonneg (by linarith [h.1]) hle
        have ht1 : (p - a.1) / (b.1 - a.1) ≤ 1 := by
          rw [div_le_one hlt]; linarith [h.2]
        constructor
        · nlinarith [mul_nonneg ht0 (sub_nonneg.mpr hbb.1),
            mul_nonneg (sub_nonneg.mpr ht1) (sub_nonneg.mpr hab.1)]
        · nlinarith [mul_nonneg ht0 (sub_nonneg.mpr hbb.2),
            mul_nonneg (sub_nonneg.mpr ht1) (sub_nonneg.mpr hab.2)]
    · simp only [interpLoop, if_neg h]
      exact interpLoop_bounds lo hi hlo hhi (b :: rest)
        (fun x hx => hmem x (by simp [hx])) p

theorem interpolateZ_bounds (lo hi : ℚ) (hlo : lo ≤ 1) (hhi : 1 ≤ hi)
    (l : List (ℚ × ℚ)) (hmem : ∀ x ∈ l, lo ≤ x.2 ∧ x.2 ≤ hi) (p : ℚ) :
    lo ≤ interpolateZ p l ∧ interpolateZ p l ≤ hi := by
  match l with
  | [] => exact ⟨hlo, hhi⟩
  | f :: rest =>
    rw [interpolateZ]
    split
    · exact hmem f (by simp)
    · split
      · exact hmem _ (List.getLast_mem _)
      · exact interpLoop_bounds lo hi hlo hhi _ hmem p

theorem getZOxygen_bounds (p : ℚ) :
    94/100 ≤ getZOxygen p ∧ getZOxygen p ≤ 131/100 := by
  refine interpolateZ_bounds _ _ (by norm_num) (by norm_num) _ ?_ p
  intro x hx
  fin_cases hx <;> constructor <;> norm_num

theorem getZHelium_bounds (p : ℚ) :
    94/100 ≤ getZHelium p ∧ getZHelium p ≤ 131/100 := by
  refine interpolateZ_bounds _ _ (by norm_num) (by norm_num) _ ?_ p
  intro x hx
  fin_cases hx <;> constructor <;> norm_num

theorem getZNitrogen_bounds (p : ℚ) :
    94/100 ≤ getZNitrogen p ∧ getZNitrogen p ≤ 131/100 := by
  refine interpolateZ_bounds _ _ (by norm_num) (by norm_num) _ ?_ p
  intro x hx
  fin_cases hx <;> constructor <;> norm_num

theorem calculateMixtureZ_ge (o2F heF p : ℚ) (h1 : 0 ≤ o2F) (h2 : 0 ≤ heF) :
    94/100 ≤ calculateMixtureZ o2F heF p := by
  have hO := getZOxygen_bounds p
  have hH := getZHelium_bounds p
  have hN := getZNitrogen_bounds p
  unfold calculateMixtureZ
  have hm1 : (0:ℚ) ≤ max 0 (1 - o2F - heF) := le_max_left _ _
  have hm2 : 1 - o2F - heF ≤ max 0 (1 - o2F - heF) := le_max_right _ _
  nlinarith [mul_nonneg h1 (by linarith [hO.1] : (0:ℚ) ≤ getZOxygen p - 94/100),
    mul_nonneg h2 (by linarith [hH.1] : (0:ℚ) ≤ getZHelium p - 94/100),
    mul_nonneg hm1 (by linarith [hN.1] : (0:ℚ) ≤ getZNitrogen p - 94/100)]

theorem calculateMixtureZ_pos (o2F heF p : ℚ) (h1 : 0 ≤ o2F) (h2 : 0 ≤ heF) :
    0 < calculateMixtureZ o2F heF p :=
  lt_of_lt_of_le (by norm_num) (calculateMixtureZ_ge o2F heF p h1 h2)

theorem moleEquivalentsToGas_scaled (o2 he : ℚ) (h3 : o2 + he ≤ 100) (T : ℚ)
    (hT : 0 < T) :
    moleEquivalentsToGas (o2/100 * T) (he/100 * T) ((1 - o2/100 - he/100) * T) =
      ⟨o2, he, 100 - o2 - he⟩ := by
  unfold moleEquivalentsToGas
  have hsum : o2/100 * T + he/100 * T + (1 - o2/100 - he/100) * T = T := by ring
  rw [hsum, if_neg (not_le.mpr hT)]
  have hTne : T ≠ 0 := ne_of_gt hT
  congr 1 <;> field_simp <;> ring

theorem moleEq_roundTrip (o2 he p : ℚ) (h1 : 0 ≤ o2) (h2 : 0 ≤ he)
    (h3 : o2 + he ≤ 100) (hp : 0 < p) :
    moleEquivalentsToGas (gasToMoleEquivalents o2 he p).o2
      (gasToMoleEquivalents o2 he p).he (gasToMoleEquivalents o2 he p).n2 =
      ⟨o2, he, 100 - o2 - he⟩ := by
  have hz := calculateMixtureZ_pos (o2/100) (he/100) p (by positivity) (by positivity)
  have hT : 0 < p / calculateMixtureZ (o2/100) (he/100) p := div_pos hp hz
  have hmax : max 0 (1 - o2/100 - he/100) = 1 - o2/100 - he/100 :=
    max_eq_right (by linarith)
  have e1 : (gasToMoleEquivalents o2 he p).o2 =
      o2/100 * (p / calculateMixtureZ (o2/100) (he/100) p) := rfl
  have e2 : (gasToMoleEquivalents o2 he p).he =
      he/100 * (p / calculateMixtureZ (o2/100) (he/100) p) := rfl
  have e3 : (gasToMoleEquivalents o2 he p).n2 =
      max 0 (1 - o2/100 - he/100) * (p / calculateMixtureZ (o2/100) (he/100) p) := rfl
  rw [e1, e2, e3, hmax]
  exact moleEquivalentsToGas_scaled o2 he h3 _ hT

theorem addGasLoop_pressure_or_zero (cO2 cHe cN2 o2F heF n2F tP : ℚ) :
    ∀ (fuel : ℕ) (d : ℚ),
      (addGasLoop cO2 cHe cN2 o2F heF n2F tP fuel d).newPressure = tP ∨
      addGasLoop cO2 cHe cN2 o2F heF n2F tP fuel d = ⟨0, 0, 0, 0⟩
  | 0, d => Or.inl rfl
  | fuel + 1, d => by
    simp only [addGasLoop]
    split
    · exact Or.inr rfl
    · split
      · exact Or.inl rfl
      · exact addGasLoop_pressure_or_zero cO2 cHe cN2 o2F heF n2F tP fuel _

theorem ite_neg_nonneg (x : ℚ) : 0 ≤ if x < 0 then (0:ℚ) else x := by
  split
  · exact le_refl 0
  · exact not_lt.mp (by assumption)

theorem addGasLoop_main (cO2 cHe cN2 o2F heF n2F tP : ℚ)
    (h0 : 0 ≤ cO2) (h1 : 0 ≤ cHe) (h2 : 0 ≤ cN2)
    (hf0 : 0 ≤ o2F) (hf1 : 0 ≤ heF) (hf2 : 0 ≤ n2F)
    (hsum : o2F + heF + n2F = 1) (htp : 0 < tP) :
    ∀ (fuel : ℕ) (d : ℚ), 0 ≤ d → (0 < d ∨ 0 < cO2 + cHe + cN2) →
      (heF = 0 → (addGasLoop cO2 cHe cN2 o2F heF n2F tP fuel d).heMoles = cHe) ∧
      (o2F = 0 → (addGasLoop cO2 cHe cN2 o2F heF n2F tP fuel d).o2Moles = cO2) ∧
      (n2F = 0 → (addGasLoop cO2 cHe cN2 o2F heF n2F tP fuel d).n2Moles = cN2) ∧
      (addGasLoop cO2 cHe cN2 o2F heF n2F tP fuel d).newPressure = tP
  | 0, d, hd, hdisj => by
    refine ⟨fun h => ?_, fun h => ?_, fun h => ?_, rfl⟩ <;>
      simp [addGasLoop, h]
  | fuel + 1, d, hd, hdisj => by
    have hmul : o2F * d + heF * d + n2F * d = d := by
      have : (o2F + heF + n2F) * d = 1 * d := by rw [hsum]
      linarith [this]
    have htot : 0 < cO2 + o2F * d + (cHe + heF * d) + (cN2 + n2F * d) := by
      rcases hdisj with hdp | hS
      · nlinarith
      · nlinarith
    simp only [addGasLoop]
    rw [if_neg (not_le.mpr htot)]
    split
    · exact ⟨fun h => by simp [h], fun h => by simp [h], fun h => by simp [h], rfl⟩
    · set tot := cO2 + o2F * d + (cHe + heF * d) + (cN2 + n2F * d) with htotdef
      have hx0 : 0 ≤ (cO2 + o2F * d) / tot :=
        div_nonneg (by positivity) (le_of_lt htot)
      have hx1 : 0 ≤ (cHe + heF * d) / tot :=
        div_nonneg (by positivity) (le_of_lt htot)
      have hz := calculateMixtureZ_pos ((cO2 + o2F * d) / tot)
        ((cHe + heF * d) / tot) tP hx0 hx1
      have hreq : 0 < tP / calculateMixtureZ ((cO2 + o2F * d) / tot)
          ((cHe + heF * d) / tot) tP := div_pos htp hz
      refine addGasLoop_main cO2 cHe cN2 o2F heF n2F tP h0 h1 h2 hf0 hf1 hf2
        hsum htp fuel _ (ite_neg_nonneg _) ?_
      by_cases hS : 0 < cO2 + cHe + cN2
      · exact Or.inr hS
      · left
        have hS0 : cO2 + cHe + cN2 = 0 := le_antisymm (not_lt.mp hS) (by positivity)
        rw [hS0, sub_zero]
        rw [if_neg (not_lt.mpr (le_of_lt hreq))]
        exact hreq

/-! ## Claim theorems -/

/-- C2: for every tank state with non-negative mole-equivalents,
`addGasToTank` with `addPressure ≤ 0` returns the input state unchanged
(same three mole-equivalents and same pressure); with `addPressure > 0` the
returned `newPressure` is exactly `currentPressure + addPressure`, except
that when the projected total moles would be non-positive it returns an
all-zero mole state with zero pressure. -/
theorem addGasToTank_pressure_exact (cO2 cHe cN2 cP aO2 aHe aP : ℚ)
    (h0 : 0 ≤ cO2) (h1 : 0 ≤ cHe) (h2 : 0 ≤ cN2) :
    (aP ≤ 0 → addGasToTank cO2 cHe cN2 cP aO2 aHe aP = ⟨cO2, cHe, cN2, cP⟩) ∧
    (0 < aP →
      (addGasToTank cO2 cHe cN2 cP aO2 aHe aP).newPressure = cP + aP ∨
      addGasToTank cO2 cHe cN2 cP aO2 aHe aP = ⟨0, 0, 0, 0⟩) := by
  constructor
  · intro h; unfold addGasToTank; rw [if_pos h]
  · intro h; unfold addGasToTank; rw [if_neg (not_le.mpr h)]
    exact addGasLoop_pressure_or_zero _ _ _ _ _ _ _ 30 aP

/-- Witness for C2 at a concrete input: filling an empty tank with 50 bar of
pure oxygen. -/
theorem addGasToTank_pressure_exact_witness :
    ((50:ℚ) ≤ 0 → addGasToTank 0 0 0 0 100 0 50 = ⟨0, 0, 0, 0⟩) ∧
    ((0:ℚ) < 50 →
      (addGasToTank 0 0 0 0 100 0 50).newPressure = 0 + 50 ∨
      addGasToTank 0 0 0 0 100 0 50 = ⟨0, 0, 0, 0⟩) :=
  addGasToTank_pressure_exact 0 0 0 0 100 0 50 (le_refl 0) (le_refl 0)
    (le_refl 0)

/-- C10: with non-negative current mole-equivalents, a positive added
pressure and a positive target pressure, a component whose fraction in the
added gas is 0 keeps exactly its input mole-equivalent: a 0%-helium gas
never changes `heMoles`, a 0%-oxygen gas never changes `o2Moles`, and a
nitrogen-free gas (`o2 + he = 100`, e.g. pure oxygen) never changes
`n2Moles`. -/
theorem addGasToTank_frame (cO2 cHe cN2 cP aO2 aHe aP : ℚ)
    (h0 : 0 ≤ cO2) (h1 : 0 ≤ cHe) (h2 : 0 ≤ cN2)
    (hp : 0 < aP) (htp : 0 < cP + aP)
    (ha0 : 0 ≤ aO2) (ha1 : 0 ≤ aHe) (ha2 : aO2 + aHe ≤ 100) :
    (aHe = 0 → (addGasToTank cO2 cHe cN2 cP aO2 aHe aP).heMoles = cHe) ∧
    (aO2 = 0 → (addGasToTank cO2 cHe cN2 cP aO2 aHe aP).o2Moles = cO2) ∧
    (aO2 + aHe = 100 →
      (addGasToTank cO2 cHe cN2 cP aO2 aHe aP).n2Moles = cN2) := by
  have heq : addGasToTank cO2 cHe cN2 cP aO2 aHe aP =
      addGasLoop cO2 cHe cN2 (aO2/100) (aHe/100)
        (max 0 (1 - aO2/100 - aHe/100)) (cP + aP) 30 aP := by
    unfold addGasToTank; rw [if_neg (not_le.mpr hp)]
  have hmax : max 0 (1 - aO2/100 - aHe/100) = 1 - aO2/100 - aHe/100 :=
    max_eq_right (by linarith)
  have hm := addGasLoop_main cO2 cHe cN2 (aO2/100) (aHe/100)
    (max 0 (1 - aO2/100 - aHe/100)) (cP + aP) h0 h1 h2
    (by positivity) (by positivity) (le_max_left _ _)
    (by rw [hmax]; ring) htp 30 aP (le_of_lt hp) (Or.inl hp)
  rw [heq]
  refine ⟨fun h => hm.1 (by rw [h]; norm_num),
    fun h => hm.2.1 (by rw [h]; norm_num), fun h => hm.2.2.1 ?_⟩
  rw [hmax]
  linarith

/-- Witness for C10 at a concrete input: adding 10 bar of pure oxygen to a
trimix tank keeps `heMoles` and `n2Moles` exactly. -/
theorem addGasToTank_frame_witness :
    (addGasToTank 10 5 20 50 100 0 10).heMoles = 5 ∧
    (addGasToTank 10 5 20 50 100 0 10).n2Moles = 20 := by
  have h := addGasToTank_frame 10 5 20 50 100 0 10 (by norm_num) (by norm_num)
    (by norm_num) (by norm_num) (by norm_num) (by norm_num) (by norm_num)
    (by norm_num)
  exact ⟨h.1 rfl, h.2.2 (by norm_num)⟩

/-- C3 (amended): for every composition with `0 ≤ o2`, `0 ≤ he`,
`o2 + he ≤ 100` and every pressure `> 0` (the code returns the all-zero
degenerate state at pressure 0, so the original "pressure ≥ 0" fails there),
converting to mole-equivalents and back reproduces o2% and he% within 0.1
percentage point (in fact exactly). -/
theorem roundTrip_within_tolerance (o2 he p : ℚ) (h1 : 0 ≤ o2) (h2 : 0 ≤ he)
    (h3 : o2 + he ≤ 100) (hp : 0 < p) :
    |(moleEquivalentsToGas (gasToMoleEquivalents o2 he p).o2
        (gasToMoleEquivalents o2 he p).he
        (gasToMoleEquivalents o2 he p).n2).o2Percent - o2| ≤ 1/10 ∧
    |(moleEquivalentsToGas (gasToMoleEquivalents o2 he p).o2
        (gasToMoleEquivalents o2 he p).he
        (gasToMoleEquivalents o2 he p).n2).hePercent - he| ≤ 1/10 := by
  rw [moleEq_roundTrip o2 he p h1 h2 h3 hp]
  norm_num

/-- Witness for C3 at a concrete input: air (21/0) at 200 bar. -/
theorem roundTrip_within_tolerance_witness :
    |(moleEquivalentsToGas (gasToMoleEquivalents 21 0 200).o2
        (gasToMoleEquivalents 21 0 200).he
        (gasToMoleEquivalents 21 0 200).n2).o2Percent - 21| ≤ 1/10 ∧
    |(moleEquivalentsToGas (gasToMoleEquivalents 21 0 200).o2
        (gasToMoleEquivalents 21 0 200).he
        (gasToMoleEquivalents 21 0 200).n2).hePercent - 0| ≤ 1/10 :=
  roundTrip_within_tolerance 21 0 200 (by norm_num) (by norm_num)
    (by norm_num) (by norm_num)

/-- Counterexample to C3 as stated: at pressure 0 (allowed by the claim's
"pressure ≥ 0") the round trip of air returns 0% O2 instead of 21%. -/
theorem roundTrip_fails_at_zero_pressure :
    0 ≤ (21:ℚ) ∧ (21:ℚ) + 0 ≤ 100 ∧ (0:ℚ) ≤ 0 ∧
    ¬(|(moleEquivalentsToGas (gasToMoleEquivalents 21 0 0).o2
        (gasToMoleEquivalents 21 0 0).he
        (gasToMoleEquivalents 21 0 0).n2).o2Percent - 21| ≤ 1/10) := by
  norm_num [gasToMoleEquivalents, moleEquivalentsToGas]

/-- C4 (amended): draining a non-negative mole-equivalent state with
`curPressure > 0` to a target pressure with `0 < targetPressure ≤
curPressure` scales each of the three mole-equivalents by exactly
`targetPressure / curPressure` and leaves the recovered O2%/He% composition
unchanged within 1e-5 (the original claim's "every targetPressure ≤
curPressure" fails at targetPressure = 0, where the recovered composition
collapses to 0/0). -/
theorem drainTank_proportional (o2M heM n2M curP tP : ℚ)
    (h0 : 0 ≤ o2M) (h1 : 0 ≤ heM) (h2 : 0 ≤ n2M)
    (hc : 0 < curP) (ht : 0 < tP) (hle : tP ≤ curP) :
    drainTank o2M heM n2M curP tP =
      ⟨o2M * (tP / curP), heM * (tP / curP), n2M * (tP / curP), tP⟩ ∧
    |(moleEquivalentsToGas (o2M * (tP / curP)) (heM * (tP / curP))
        (n2M * (tP / curP))).o2Percent -
      (moleEquivalentsToGas o2M heM n2M).o2Percent| ≤ 1/100000 ∧
    |(moleEquivalentsToGas (o2M * (tP / curP)) (heM * (tP / curP))
        (n2M * (tP / curP))).hePercent -
      (moleEquivalentsToGas o2M heM n2M).hePercent| ≤ 1/100000 := by
  have hr : 0 < tP / curP := div_pos ht hc
  refine ⟨by unfold drainTank; rw [if_neg (not_le.mpr hc)], ?_⟩
  by_cases htot : o2M + heM + n2M ≤ 0
  · have ho : o2M = 0 := by linarith
    have hh : heM = 0 := by linarith
    have hn : n2M = 0 := by linarith
    subst ho; subst hh; subst hn
    norm_num [moleEquivalentsToGas]
  · push_neg at htot
    have hkey : moleEquivalentsToGas (o2M * (tP / curP)) (heM * (tP / curP))
        (n2M * (tP / curP)) = moleEquivalentsToGas o2M heM n2M := by
      unfold moleEquivalentsToGas
      have hs : o2M * (tP / curP) + heM * (tP / curP) + n2M * (tP / curP) =
          (o2M + heM + n2M) * (tP / curP) := by ring
      rw [hs, if_neg (not_le.mpr (mul_pos htot hr)), if_neg (not_le.mpr htot)]
      have hrne : tP / curP ≠ 0 := ne_of_gt hr
      have htne : o2M + heM + n2M ≠ 0 := ne_of_gt htot
      congr 1 <;> field_simp <;> ring
    rw [hkey]
    norm_num

/-- Witness for C4 at a concrete input: draining air-like mole-equivalents
from 200 bar to 100 bar. -/
theorem drainTank_proportional_witness :
    drainTank 42 0 158 200 100 =
      ⟨42 * ((100:ℚ) / 200), 0 * ((100:ℚ) / 200), 158 * ((100:ℚ) / 200), 100⟩ ∧
    |(moleEquivalentsToGas (42 * ((100:ℚ) / 200)) (0 * ((100:ℚ) / 200))
        (158 * ((100:ℚ) / 200))).o2Percent -
      (moleEquivalentsToGas 42 0 158).o2Percent| ≤ 1/100000 ∧
    |(moleEquivalentsToGas (42 * ((100:ℚ) / 200)) (0 * ((100:ℚ) / 200))
        (158 * ((100:ℚ) / 200))).hePercent -
      (moleEquivalentsToGas 42 0 158).hePercent| ≤ 1/100000 :=
  drainTank_proportional 42 0 158 200 100 (by norm_num) (by norm_num)
    (by norm_num) (by norm_num) (by norm_num) (by norm_num)

/-- Counterexample to C4 as stated: draining to targetPressure = 0 (allowed
by "every targetPressure ≤ curPressure") zeroes the state, so the recovered
O2% jumps from 21 to 0 — far beyond 1e-5. -/
theorem drainTank_composition_lost_at_zero_target :
    (0:ℚ) < 200 ∧ (0:ℚ) ≤ 200 ∧
    drainTank 42 0 158 200 0 = ⟨0, 0, 0, 0⟩ ∧
    ¬(|(moleEquivalentsToGas (drainTank 42 0 158 200 0).o2Moles
        (drainTank 42 0 158 200 0).heMoles
        (drainTank 42 0 158 200 0).n2Moles).o2Percent -
       (moleEquivalentsToGas 42 0 158).o2Percent| ≤ 1/100000) := by
  norm_num [drainTank, moleEquivalentsToGas]

/-- C8 (amended): `gasToMoleEquivalents` returns the all-zero
mole-equivalent state at pressure exactly 0 (for any composition); for
strictly negative pressures the original "pressure ≤ 0 ⇒ all zero" fails:
the code has no guard and returns negative mole-equivalents. -/
theorem gasToMoleEquivalents_zero_pressure (o2Percent hePercent : ℚ) :
    gasToMoleEquivalents o2Percent hePercent 0 = ⟨0, 0, 0, 0⟩ := by
  unfold gasToMoleEquivalents
  norm_num

/-- Counterexample to C8 as stated: at pressure −10 (allowed by
"pressure ≤ 0") air yields the nonzero O2 mole-equivalent −21/10. -/
theorem gasToMoleEquivalents_negative_pressure :
    (21:ℚ) + 0 ≤ 100 ∧ (-10:ℚ) ≤ 0 ∧
    (gasToMoleEquivalents 21 0 (-10)).o2 = -(21/10) := by
  norm_num [gasToMoleEquivalents, calculateMixtureZ, getZOxygen, getZHelium,
    getZNitrogen, interpolateZ, Z_OXYGEN, Z_HELIUM, Z_NITROGEN]

/-- C5: for every target with o2 + he > 100 (all rationals are finite, so
the source's `Number.isFinite` guards hold), `calculateBlendingSteps`
rejects before any computation: empty steps, finalMix echoing the starting
tank's o2/he/pressure, success = false, and an error message ending in
"exceeds 100%". -/
theorem calculateBlendingSteps_invalid_target (s : TankState) (t : TargetGas)
    (gs : List Gas) (h : 100 < t.o2 + t.he) :
    calculateBlendingSteps s t gs =
      ⟨[], ⟨s.o2, s.he, s.pressure⟩, [], false,
        some (exceedsMsgHead t.o2 t.he ++ "exceeds 100%")⟩ := by
  unfold calculateBlendingSteps
  rw [if_pos h]

/-- Witness for C5 at the spec's scenario D: target O2=60, He=50 (sum 110). -/
theorem calculateBlendingSteps_invalid_target_witness :
    calculateBlendingSteps ⟨12, 21, 0, 100⟩ ⟨60, 50, 200⟩ [] =
      ⟨[], ⟨21, 0, 100⟩, [], false,
        some (exceedsMsgHead 60 50 ++ "exceeds 100%")⟩ :=
  calculateBlendingSteps_invalid_target ⟨12, 21, 0, 100⟩ ⟨60, 50, 200⟩ []
    (by norm_num)

/-- C1: for every valid target (o2 + he ≤ 100, so the separate
invalid-target rejection of C5 does not fire), `calculateBlendingSteps`
reports success = true exactly when the computed final mix is within
tolerance of the target (|O2%−target| ≤ 1, |He%−target| ≤ 1,
|pressure−target| ≤ 2 bar); in all cases (success or failure) it returns
the full list of computed steps, the actual final mixture and the gas
usage of the planner run, and on failure additionally a descriptive error
message.  The embedding is a total function, so no input throws. -/
theorem calculateBlendingSteps_success_iff (s : TankState) (t : TargetGas)
    (gs : List Gas) (h : t.o2 + t.he ≤ 100) :
    ((calculateBlendingSteps s t gs).success = true ↔
      (|(calculateBlendingSteps s t gs).finalMix.o2 - t.o2| ≤ 1 ∧
       |(calculateBlendingSteps s t gs).finalMix.he - t.he| ≤ 1 ∧
       |(calculateBlendingSteps s t gs).finalMix.pressure - t.pressure| ≤ 2)) ∧
    (calculateBlendingSteps s t gs).steps = (planner s t gs).steps ∧
    (calculateBlendingSteps s t gs).finalMix = blendFinalMix (planner s t gs) ∧
    (calculateBlendingSteps s t gs).gasUsage = (planner s t gs).gasUsage ∧
    ((calculateBlendingSteps s t gs).success = false →
      (calculateBlendingSteps s t gs).error =
        some (unableMsg (blendFinalMix (planner s t gs)))) := by
  have hne : ¬(100 < t.o2 + t.he) := not_lt.mpr h
  simp only [calculateBlendingSteps]
  rw [if_neg hne]
  by_cases hc : 1 < |(blendFinalMix (planner s t gs)).o2 - t.o2| ∨
      1 < |(blendFinalMix (planner s t gs)).he - t.he| ∨
      2 < |(blendFinalMix (planner s t gs)).pressure - t.pressure|
  · rw [if_pos hc]
    refine ⟨?_, rfl, rfl, rfl, fun _ => rfl⟩
    constructor
    · intro hfalse; exact absurd hfalse (by simp)
    · rintro ⟨ha, hb, hp⟩
      rcases hc with h' | h' | h'
      · exact absurd ha (not_le.mpr h')
      · exact absurd hb (not_le.mpr h')
      · exact absurd hp (not_le.mpr h')
  · rw [if_neg hc]
    push_neg at hc
    refine ⟨?_, rfl, rfl, rfl, fun hf => ?_⟩
    · exact iff_of_true rfl ⟨hc.1, hc.2.1, hc.2.2⟩
    · exact absurd hf (by simp)

/-- Witness for C1 at a concrete input: a tank already exactly at the
target with an empty catalog. -/
theorem calculateBlendingSteps_success_iff_witness :
    (((calculateBlendingSteps ⟨12, 21, 0, 200⟩ ⟨21, 0, 200⟩ []).success = true ↔
      (|(calculateBlendingSteps ⟨12, 21, 0, 200⟩ ⟨21, 0, 200⟩ []).finalMix.o2 - 21| ≤ 1 ∧
       |(calculateBlendingSteps ⟨12, 21, 0, 200⟩ ⟨21, 0, 200⟩ []).finalMix.he - 0| ≤ 1 ∧
       |(calculateBlendingSteps ⟨12, 21, 0, 200⟩ ⟨21, 0, 200⟩ []).finalMix.pressure - 200| ≤ 2)) ∧
    (calculateBlendingSteps ⟨12, 21, 0, 200⟩ ⟨21, 0, 200⟩ []).steps =
      (planner ⟨12, 21, 0, 200⟩ ⟨21, 0, 200⟩ []).steps ∧
    (calculateBlendingSteps ⟨12, 21, 0, 200⟩ ⟨21, 0, 200⟩ []).finalMix =
      blendFinalMix (planner ⟨12, 21, 0, 200⟩ ⟨21, 0, 200⟩ []) ∧
    (calculateBlendingSteps ⟨12, 21, 0, 200⟩ ⟨21, 0, 200⟩ []).gasUsage =
      (planner ⟨12, 21, 0, 200⟩ ⟨21, 0, 200⟩ []).gasUsage ∧
    ((calculateBlendingSteps ⟨12, 21, 0, 200⟩ ⟨21, 0, 200⟩ []).success = false →
      (calculateBlendingSteps ⟨12, 21, 0, 200⟩ ⟨21, 0, 200⟩ []).error =
        some (unableMsg (blendFinalMix (planner ⟨12, 21, 0, 200⟩ ⟨21, 0, 200⟩ []))))) :=
  calculateBlendingSteps_success_iff ⟨12, 21, 0, 200⟩ ⟨21, 0, 200⟩ []
    (by norm_num)

theorem interpLoop_segment :
    ∀ (l₁ : List (ℚ × ℚ)) (a b : ℚ × ℚ) (l₂ : List (ℚ × ℚ)) (p : ℚ),
      pressureSorted (l₁ ++ a :: b :: l₂) → a.1 ≤ p → p ≤ b.1 →
      interpLoop p (l₁ ++ a :: b :: l₂) =
        a.2 + (p - a.1) / (b.1 - a.1) * (b.2 - a.2)
  | [], a, b, l₂, p => by
    intro _ ha hb
    rw [List.nil_append, interpLoop_cons_cons, if_pos ⟨ha, hb⟩]
  | [x], a, b, l₂, p => by
    intro hs ha hb
    have hs' := List.pairwise_cons.mp hs
    have hxa : x.1 < a.1 := hs'.1 a (by simp)
    have hab : a.1 < b.1 := (List.pairwise_cons.mp hs'.2).1 b (by simp)
    have hne : a.1 - x.1 ≠ 0 := by intro h0; rw [sub_eq_zero] at h0; linarith
    rw [show ([x] : List (ℚ × ℚ)) ++ a :: b :: l₂ = x :: a :: b :: l₂ from rfl,
      interpLoop_cons_cons]
    by_cases hcase : x.1 ≤ p ∧ p ≤ a.1
    · have hpa : p = a.1 := le_antisymm hcase.2 ha
      rw [if_pos hcase, hpa, sub_self, zero_div, zero_mul, add_zero,
        div_self hne]
      ring
    · rw [if_neg hcase, interpLoop_cons_cons, if_pos ⟨ha, hb⟩]
  | x :: c :: l₁', a, b, l₂, p => by
    intro hs ha hb
    have hs' := List.pairwise_cons.mp hs
    have hca : c.1 < a.1 :=
      (List.pairwise_cons.mp hs'.2).1 a (by simp)
    have hnotc : ¬(x.1 ≤ p ∧ p ≤ c.1) := by
      rintro ⟨_, hpc⟩; linarith
    rw [show (x :: c :: l₁') ++ a :: b :: l₂ =
        x :: c :: (l₁' ++ a :: b :: l₂) from rfl, interpLoop_cons_cons,
      if_neg hnotc]
    exact interpLoop_segment (c :: l₁') a b l₂ p hs'.2 ha hb

theorem interpolateZ_segment (l₁ : List (ℚ × ℚ)) (a b : ℚ × ℚ)
    (l₂ : List (ℚ × ℚ)) (p : ℚ) (hs : pressureSorted (l₁ ++ a :: b :: l₂))
    (ha : a.1 ≤ p) (hb : p ≤ b.1) :
    interpolateZ p (l₁ ++ a :: b :: l₂) =
      a.2 + (p - a.1) / (b.1 - a.1) * (b.2 - a.2) := by
  have habl : List.Pairwise (fun u v : ℚ × ℚ => u.1 < v.1) (a :: b :: l₂) :=
    hs.sublist (List.sublist_append_right l₁ _)
  have hab : a.1 < b.1 := (List.pairwise_cons.mp habl).1 b (by simp)
  have hblast : ∀ y ∈ l₂, b.1 < y.1 := by
    intro y hy
    exact (List.pairwise_cons.mp (List.pairwise_cons.mp habl).2).1 y hy
  have hne : b.1 - a.1 ≠ 0 := by intro h0; rw [sub_eq_zero] at h0; linarith
  match l₁ with
  | [] =>
    rw [List.nil_append, interpolateZ_cons]
    by_cases hpa : p ≤ a.1
    · have hp : p = a.1 := le_antisymm hpa ha
      rw [if_pos hpa, hp, sub_self, zero_div, zero_mul, add_zero]
    · rw [if_neg hpa]
      match l₂ with
      | [] =>
        have hgl : List.getLast (a :: b :: ([] : List (ℚ × ℚ)))
            (List.cons_ne_nil a [b]) = b := rfl
        rw [hgl]
        by_cases hlast : b.1 ≤ p
        · have hp : p = b.1 := le_antisymm hb hlast
          rw [if_pos hlast, hp, div_self hne]
          ring
        · rw [if_neg hlast, interpLoop_cons_cons, if_pos ⟨ha, hb⟩]
      | c :: l₂' =>
        have hgl : List.getLast (a :: b :: c :: l₂')
            (List.cons_ne_nil a (b :: c :: l₂')) =
            List.getLast (c :: l₂') (List.cons_ne_nil c l₂') := by
          rw [List.getLast_cons (List.cons_ne_nil b (c :: l₂')),
            List.getLast_cons (List.cons_ne_nil c l₂')]
        have hmem := List.getLast_mem (List.cons_ne_nil c l₂')
        have hlt : b.1 < (List.getLast (c :: l₂') (List.cons_ne_nil c l₂')).1 :=
          hblast _ hmem
        rw [hgl, if_neg (by intro hle; linarith)]
        exact interpLoop_segment [] a b (c :: l₂') p habl ha hb
  | x :: l₁' =>
    have hxa : x.1 < a.1 := by
      have := (List.pairwise_cons.mp hs).1 a (by simp)
      exact this
    rw [show (x :: l₁') ++ a :: b :: l₂ = x :: (l₁' ++ a :: b :: l₂) from rfl,
      interpolateZ_cons, if_neg (by intro hle; linarith : ¬p ≤ x.1)]
    have hrest : l₁' ++ a :: b :: l₂ ≠ [] := by simp
    have hgl : List.getLast (x :: (l₁' ++ a :: b :: l₂))
        (List.cons_ne_nil x _) =
        List.getLast (a :: b :: l₂) (List.cons_ne_nil a (b :: l₂)) := by
      rw [List.getLast_cons hrest]
      exact List.getLast_append' l₁' (a :: b :: l₂) (List.cons_ne_nil a (b :: l₂))
    rw [hgl]
    match l₂ with
    | [] =>
      have hgl2 : List.getLast (a :: b :: ([] : List (ℚ × ℚ)))
          (List.cons_ne_nil a [b]) = b := rfl
      rw [hgl2]
      by_cases hlast : b.1 ≤ p
      · have hp : p = b.1 := le_antisymm hb hlast
        rw [if_pos hlast, hp, div_self hne]
        ring
      · rw [if_neg hlast]
        exact interpLoop_segment (x :: l₁') a b [] p hs ha hb
    | c :: l₂' =>
      have hgl2 : List.getLast (a :: b :: c :: l₂')
          (List.cons_ne_nil a (b :: c :: l₂')) =
          List.getLast (c :: l₂') (List.cons_ne_nil c l₂') := by
        rw [List.getLast_cons (List.cons_ne_nil b (c :: l₂')),
          List.getLast_cons (List.cons_ne_nil c l₂')]
      have hmem := List.getLast_mem (List.cons_ne_nil c l₂')
      have hlt : b.1 < (List.getLast (c :: l₂') (List.cons_ne_nil c l₂')).1 :=
        hblast _ hmem
      rw [hgl2, if_neg (by intro hle; linarith)]
      exact interpLoop_segment (x :: l₁') a b (c :: l₂') p hs ha hb

theorem lerp_lt_lerp (x1 x2 z1 z2 p q : ℚ) (hx : x1 < x2) (hz : z1 < z2)
    (hpq : p < q) :
    z1 + (p - x1) / (x2 - x1) * (z2 - z1) <
      z1 + (q - x1) / (x2 - x1) * (z2 - z1) := by
  have hd : 0 < x2 - x1 := by linarith
  have hsplit : (q - x1) / (x2 - x1) =
      (p - x1) / (x2 - x1) + (q - p) / (x2 - x1) := by ring
  rw [hsplit]
  nlinarith [mul_pos (div_pos (by linarith : (0:ℚ) < q - p) hd)
    (by linarith : (0:ℚ) < z2 - z1)]

theorem lerp_le_right (x1 x2 z1 z2 p : ℚ) (hx : x1 < x2) (hz : z1 ≤ z2)
    (hp : p ≤ x2) :
    z1 + (p - x1) / (x2 - x1) * (z2 - z1) ≤ z2 := by
  have hd : 0 < x2 - x1 := by linarith
  have ht : (p - x1) / (x2 - x1) ≤ 1 := by
    rw [div_le_one hd]; linarith
  nlinarith [mul_le_mul_of_nonneg_right ht (by linarith : (0:ℚ) ≤ z2 - z1)]

theorem lerp_lt_lerp_anti (x1 x2 z1 z2 p q : ℚ) (hx : x1 < x2) (hz : z2 < z1)
    (hpq : p < q) :
    z1 + (q - x1) / (x2 - x1) * (z2 - z1) <
      z1 + (p - x1) / (x2 - x1) * (z2 - z1) := by
  have hd : 0 < x2 - x1 := by linarith
  have hsplit : (q - x1) / (x2 - x1) =
      (p - x1) / (x2 - x1) + (q - p) / (x2 - x1) := by ring
  rw [hsplit]
  nlinarith [mul_pos (div_pos (by linarith : (0:ℚ) < q - p) hd)
    (by linarith : (0:ℚ) < z1 - z2)]

theorem lerp_ge_right_anti (x1 x2 z1 z2 p : ℚ) (hx : x1 < x2) (hz : z2 ≤ z1)
    (hp : p ≤ x2) :
    z2 ≤ z1 + (p - x1) / (x2 - x1) * (z2 - z1) := by
  have hd : 0 < x2 - x1 := by linarith
  have ht : (p - x1) / (x2 - x1) ≤ 1 := by
    rw [div_le_one hd]; linarith
  nlinarith [mul_le_mul_of_nonneg_right ht (by linarith : (0:ℚ) ≤ z1 - z2)]

theorem interpLoop_getLast :
    ∀ (rest : List (ℚ × ℚ)) (a b : ℚ × ℚ),
      pressureSorted (a :: b :: rest) →
      interpLoop (List.getLast (a :: b :: rest)
        (List.cons_ne_nil a (b :: rest))).1 (a :: b :: rest) =
      (List.getLast (a :: b :: rest) (List.cons_ne_nil a (b :: rest))).2
  | [], a, b => by
    intro hs
    have hab : a.1 < b.1 := (List.pairwise_cons.mp hs).1 b (by simp)
    have hgl : List.getLast [a, b] (List.cons_ne_nil a [b]) = b := rfl
    rw [hgl, interpLoop_cons_cons, if_pos ⟨le_of_lt hab, le_refl _⟩,
      div_self (by intro h0; rw [sub_eq_zero] at h0; linarith)]
    ring
  | c :: rest', a, b => by
    intro hs
    have hs2 := (List.pairwise_cons.mp hs).2
    have hgl : List.getLast (a :: b :: c :: rest')
        (List.cons_ne_nil a (b :: c :: rest')) =
        List.getLast (b :: c :: rest') (List.cons_ne_nil b (c :: rest')) := by
      rw [List.getLast_cons (List.cons_ne_nil b (c :: rest'))]
    have hbl : b.1 < (List.getLast (b :: c :: rest')
        (List.cons_ne_nil b (c :: rest'))).1 := by
      rw [List.getLast_cons (List.cons_ne_nil c rest')]
      exact (List.pairwise_cons.mp hs2).1 _ (List.getLast_mem _)
    rw [hgl, interpLoop_cons_cons, if_neg (by rintro ⟨_, hle⟩; linarith)]
    exact interpLoop_getLast rest' b c hs2

theorem interpLoop_strictMono :
    ∀ (rest : List (ℚ × ℚ)) (a b : ℚ × ℚ) (p q : ℚ),
      tableInc (a :: b :: rest) → a.1 ≤ p → p < q →
      q ≤ (List.getLast (a :: b :: rest)
        (List.cons_ne_nil a (b :: rest))).1 →
      interpLoop p (a :: b :: rest) < interpLoop q (a :: b :: rest)
  | [], a, b, p, q => by
    intro hs ha hpq hq
    have hab := (List.pairwise_cons.mp hs).1 b (by simp)
    have hgl : List.getLast [a, b] (List.cons_ne_nil a [b]) = b := rfl
    rw [hgl] at hq
    have hpb : p ≤ b.1 := le_of_lt (lt_of_lt_of_le hpq hq)
    rw [interpLoop_cons_cons, if_pos ⟨ha, hpb⟩, interpLoop_cons_cons,
      if_pos ⟨le_trans ha (le_of_lt hpq), hq⟩]
    exact lerp_lt_lerp a.1 b.1 a.2 b.2 p q hab.1 hab.2 hpq
  | c :: rest', a, b, p, q => by
    intro hs ha hpq hq
    have hcons := List.pairwise_cons.mp hs
    have hab := hcons.1 b (by simp)
    have hs2 := hcons.2
    have hbc := (List.pairwise_cons.mp hs2).1 c (by simp)
    have hgl : List.getLast (a :: b :: c :: rest')
        (List.cons_ne_nil a (b :: c :: rest')) =
        List.getLast (b :: c :: rest') (List.cons_ne_nil b (c :: rest')) := by
      rw [List.getLast_cons (List.cons_ne_nil b (c :: rest'))]
    rw [hgl] at hq
    by_cases hpb : p ≤ b.1
    · rw [interpLoop_cons_cons p a b (c :: rest'), if_pos ⟨ha, hpb⟩]
      by_cases hqb : q ≤ b.1
      · rw [interpLoop_cons_cons q a b (c :: rest'),
          if_pos ⟨le_trans ha (le_of_lt hpq), hqb⟩]
        exact lerp_lt_lerp a.1 b.1 a.2 b.2 p q hab.1 hab.2 hpq
      · push_neg at hqb
        rw [interpLoop_cons_cons q a b (c :: rest'),
          if_neg (show ¬(a.1 ≤ q ∧ q ≤ b.1) by rintro ⟨_, hle⟩; linarith)]
        have hlast : interpLoop b.1 (b :: c :: rest') = b.2 := by
          rw [interpLoop_cons_cons b.1 b c rest',
            if_pos ⟨le_refl b.1, le_of_lt hbc.1⟩, sub_self, zero_div,
            zero_mul, add_zero]
        have hrec : interpLoop b.1 (b :: c :: rest') <
            interpLoop q (b :: c :: rest') :=
          interpLoop_strictMono rest' b c b.1 q hs2 (le_refl b.1) hqb hq
        have hvb : a.2 + (p - a.1) / (b.1 - a.1) * (b.2 - a.2) ≤ b.2 :=
          lerp_le_right a.1 b.1 a.2 b.2 p hab.1 (le_of_lt hab.2) hpb
        rw [hlast] at hrec
        linarith
    · push_neg at hpb
      have hqb : b.1 < q := lt_trans hpb hpq
      rw [interpLoop_cons_cons p a b (c :: rest'),
        if_neg (show ¬(a.1 ≤ p ∧ p ≤ b.1) by rintro ⟨_, hle⟩; linarith),
        interpLoop_cons_cons q a b (c :: rest'),
        if_neg (show ¬(a.1 ≤ q ∧ q ≤ b.1) by rintro ⟨_, hle⟩; linarith)]
      exact interpLoop_strictMono rest' b c p q hs2 (le_of_lt hpb) hpq hq

theorem interpLoop_strictAnti :
    ∀ (rest : List (ℚ × ℚ)) (a b : ℚ × ℚ) (p q : ℚ),
      tableDec (a :: b :: rest) → a.1 ≤ p → p < q →
      q ≤ (List.getLast (a :: b :: rest)
        (List.cons_ne_nil a (b :: rest))).1 →
      interpLoop q (a :: b :: rest) < interpLoop p (a :: b :: rest)
  | [], a, b, p, q => by
    intro hs ha hpq hq
    have hab := (List.pairwise_cons.mp hs).1 b (by simp)
    have hgl : List.getLast [a, b] (List.cons_ne_nil a [b]) = b := rfl
    rw [hgl] at hq
    have hpb : p ≤ b.1 := le_of_lt (lt_of_lt_of_le hpq hq)
    rw [interpLoop_cons_cons p a b ([] : List (ℚ × ℚ)), if_pos ⟨ha, hpb⟩,
      interpLoop_cons_cons q a b ([] : List (ℚ × ℚ)),
      if_pos ⟨le_trans ha (le_of_lt hpq), hq⟩]
    exact lerp_lt_lerp_anti a.1 b.1 a.2 b.2 p q hab.1 hab.2 hpq
  | c :: rest', a, b, p, q => by
    intro hs ha hpq hq
    have hcons := List.pairwise_cons.mp hs
    have hab := hcons.1 b (by simp)
    have hs2 := hcons.2
    have hbc := (List.pairwise_cons.mp hs2).1 c (by simp)
    have hgl : List.getLast (a :: b :: c :: rest')
        (List.cons_ne_nil a (b :: c :: rest')) =
        List.getLast (b :: c :: rest') (List.cons_ne_nil b (c :: rest')) := by
      rw [List.getLast_cons (List.cons_ne_nil b (c :: rest'))]
    rw [hgl] at hq
    by_cases hpb : p ≤ b.1
    · rw [interpLoop_cons_cons p a b (c :: rest'), if_pos ⟨ha, hpb⟩]
      by_cases hqb : q ≤ b.1
      · rw [interpLoop_cons_cons q a b (c :: rest'),
          if_pos ⟨le_trans ha (le_of_lt hpq), hqb⟩]
        exact lerp_lt_lerp_anti a.1 b.1 a.2 b.2 p q hab.1 hab.2 hpq
      · push_neg at hqb
        rw [interpLoop_cons_cons q a b (c :: rest'),
          if_neg (show ¬(a.1 ≤ q ∧ q ≤ b.1) by rintro ⟨_, hle⟩; linarith)]
        have hlast : interpLoop b.1 (b :: c :: rest') = b.2 := by
          rw [interpLoop_cons_cons b.1 b c rest',
            if_pos ⟨le_refl b.1, le_of_lt hbc.1⟩, sub_self, zero_div,
            zero_mul, add_zero]
        have hrec : interpLoop q (b :: c :: rest') <
            interpLoop b.1 (b :: c :: rest') :=
          interpLoop_strictAnti rest' b c b.1 q hs2 (le_refl b.1) hqb hq
        have hvb : b.2 ≤ a.2 + (p - a.1) / (b.1 - a.1) * (b.2 - a.2) :=
          lerp_ge_right_anti a.1 b.1 a.2 b.2 p hab.1 (le_of_lt hab.2) hpb
        rw [hlast] at hrec
        linarith
    · push_neg at hpb
      have hqb : b.1 < q := lt_trans hpb hpq
      rw [interpLoop_cons_cons p a b (c :: rest'),
        if_neg (show ¬(a.1 ≤ p ∧ p ≤ b.1) by rintro ⟨_, hle⟩; linarith),
        interpLoop_cons_cons q a b (c :: rest'),
        if_neg (show ¬(a.1 ≤ q ∧ q ≤ b.1) by rintro ⟨_, hle⟩; linarith)]
      exact interpLoop_strictAnti rest' b c p q hs2 (le_of_lt hpb) hpq hq

theorem interpLoop_append :
    ∀ (rest : List (ℚ × ℚ)) (a b : ℚ × ℚ) (l₂ : List (ℚ × ℚ)) (p : ℚ),
      pressureSorted ((a :: b :: rest) ++ l₂) → a.1 ≤ p →
      p ≤ (List.getLast (a :: b :: rest)
        (List.cons_ne_nil a (b :: rest))).1 →
      interpLoop p ((a :: b :: rest) ++ l₂) = interpLoop p (a :: b :: rest)
  | [], a, b, l₂, p => by
    intro _ ha hp
    have hgl : List.getLast [a, b] (List.cons_ne_nil a [b]) = b := rfl
    rw [hgl] at hp
    rw [show ([a, b] ++ l₂) = a :: b :: l₂ from rfl, interpLoop_cons_cons,
      if_pos ⟨ha, hp⟩, interpLoop_cons_cons, if_pos ⟨ha, hp⟩]
  | c :: rest', a, b, l₂, p => by
    intro hs ha hp
    have hgl : List.getLast (a :: b :: c :: rest')
        (List.cons_ne_nil a (b :: c :: rest')) =
        List.getLast (b :: c :: rest') (List.cons_ne_nil b (c :: rest')) := by
      rw [List.getLast_cons (List.cons_ne_nil b (c :: rest'))]
    rw [hgl] at hp
    have hs2 : pressureSorted ((b :: c :: rest') ++ l₂) :=
      (List.pairwise_cons.mp hs).2
    rw [show ((a :: b :: c :: rest') ++ l₂) =
        a :: b :: ((c :: rest') ++ l₂) from rfl]
    by_cases hab : a.1 ≤ p ∧ p ≤ b.1
    · rw [interpLoop_cons_cons, if_pos hab, interpLoop_cons_cons, if_pos hab]
    · have hpb : b.1 < p := by
        rcases not_and_or.mp hab with h | h
        · exact absurd ha h
        · exact not_le.mp h
      rw [interpLoop_cons_cons, if_neg hab, interpLoop_cons_cons, if_neg hab]
      exact interpLoop_append rest' b c l₂ p hs2 (le_of_lt hpb) hp

theorem interpolateZ_eq_interpLoop (f : ℚ × ℚ) (rest : List (ℚ × ℚ))
    (lastPair : ℚ × ℚ)
    (hlast : List.getLast (f :: rest) (List.cons_ne_nil f rest) = lastPair)
    (p : ℚ) (h1 : f.1 < p) (h2 : p < lastPair.1) :
    interpolateZ p (f :: rest) = interpLoop p (f :: rest) := by
  rw [interpolateZ_cons, hlast, if_neg (not_le.mpr h1), if_neg (not_le.mpr h2)]

theorem interpolateZ_strictMono (f s : ℚ × ℚ) (rest : List (ℚ × ℚ))
    (lastPair : ℚ × ℚ) (hinc : tableInc (f :: s :: rest))
    (hlast : List.getLast (f :: s :: rest)
      (List.cons_ne_nil f (s :: rest)) = lastPair)
    (p q : ℚ) (hp : f.1 < p) (hpq : p < q) (hq : q ≤ lastPair.1) :
    interpolateZ p (f :: s :: rest) < interpolateZ q (f :: s :: rest) := by
  have hsorted : pressureSorted (f :: s :: rest) :=
    List.Pairwise.imp (fun h => h.1) hinc
  rw [interpolateZ_cons, interpolateZ_cons, hlast]
  rw [if_neg (not_le.mpr hp),
    if_neg (show ¬lastPair.1 ≤ p by intro hh; linarith),
    if_neg (show ¬q ≤ f.1 by intro hh; linarith)]
  by_cases hql : lastPair.1 ≤ q
  · rw [if_pos hql]
    have hqe : q = lastPair.1 := le_antisymm hq hql
    have h1 : interpLoop lastPair.1 (f :: s :: rest) = lastPair.2 := by
      have h2 := interpLoop_getLast rest f s hsorted
      rw [hlast] at h2
      exact h2
    rw [← h1]
    exact interpLoop_strictMono rest f s p lastPair.1 hinc (le_of_lt hp)
      (hqe ▸ hpq) (by rw [hlast])
  · rw [if_neg hql]
    exact interpLoop_strictMono rest f s p q hinc (le_of_lt hp) hpq
      (by rw [hlast]; exact hq)

theorem tableIncRel_trans : ∀ (u v w : ℚ × ℚ),
    (u.1 < v.1 ∧ u.2 < v.2) → (v.1 < w.1 ∧ v.2 < w.2) →
    (u.1 < w.1 ∧ u.2 < w.2) :=
  fun _ _ _ h1 h2 => ⟨lt_trans h1.1 h2.1, lt_trans h1.2 h2.2⟩

theorem tableDecRel_trans : ∀ (u v w : ℚ × ℚ),
    (u.1 < v.1 ∧ v.2 < u.2) → (v.1 < w.1 ∧ w.2 < v.2) →
    (u.1 < w.1 ∧ w.2 < u.2) :=
  fun _ _ _ h1 h2 => ⟨lt_trans h1.1 h2.1, lt_trans h2.2 h1.2⟩

theorem Z_NITROGEN_inc : tableInc Z_NITROGEN := by
  unfold tableInc Z_NITROGEN
  have : IsTrans (ℚ × ℚ) (fun u v => u.1 < v.1 ∧ u.2 < v.2) :=
    ⟨tableIncRel_trans⟩
  rw [← List.chain'_iff_pairwise]
  norm_num [List.chain'_cons]

theorem Z_HELIUM_inc : tableInc Z_HELIUM := by
  unfold tableInc Z_HELIUM
  have : IsTrans (ℚ × ℚ) (fun u v => u.1 < v.1 ∧ u.2 < v.2) :=
    ⟨tableIncRel_trans⟩
  rw [← List.chain'_iff_pairwise]
  norm_num [List.chain'_cons]

theorem Z_OXYGEN_core_dec : tableDec Z_OXYGEN_core := by
  unfold tableDec Z_OXYGEN_core
  have : IsTrans (ℚ × ℚ) (fun u v => u.1 < v.1 ∧ v.2 < u.2) :=
    ⟨tableDecRel_trans⟩
  rw [← List.chain'_iff_pairwise]
  norm_num [List.chain'_cons]

theorem pressureRel_trans : ∀ (u v w : ℚ × ℚ),
    u.1 < v.1 → v.1 < w.1 → u.1 < w.1 :=
  fun _ _ _ h1 h2 => lt_trans h1 h2

theorem Z_OXYGEN_sorted : pressureSorted Z_OXYGEN := by
  unfold pressureSorted Z_OXYGEN
  have : IsTrans (ℚ × ℚ) (fun u v => u.1 < v.1) := ⟨pressureRel_trans⟩
  rw [← List.chain'_iff_pairwise]
  norm_num [List.chain'_cons]

theorem tableInc_pressureSorted (l : List (ℚ × ℚ)) (h : tableInc l) :
    pressureSorted l :=
  List.Pairwise.imp (fun hx => hx.1) h

/-- C6 (amended): over the sampled range, `getZNitrogen` and `getZHelium`
are strictly increasing on 0 < p < q ≤ 400; `getZOxygen` is strictly
decreasing only up to 350 bar — the original "decreasing over 0-400"
fails because the oxygen table itself rises between 350 bar (Z = 0.9425)
and 400 bar (Z = 0.9428). -/
theorem zFactor_monotonicity :
    (∀ p q : ℚ, 0 < p → p < q → q ≤ 400 → getZNitrogen p < getZNitrogen q) ∧
    (∀ p q : ℚ, 0 < p → p < q → q ≤ 400 → getZHelium p < getZHelium q) ∧
    (∀ p q : ℚ, 0 < p → p < q → q ≤ 350 → getZOxygen q < getZOxygen p) := by
  refine ⟨?_, ?_, ?_⟩
  · intro p q hp hpq hq
    exact interpolateZ_strictMono _ _ _ (400, 1.2315) Z_NITROGEN_inc rfl
      p q hp hpq hq
  · intro p q hp hpq hq
    exact interpolateZ_strictMono _ _ _ (400, 1.3038) Z_HELIUM_inc rfl
      p q hp hpq hq
  · intro p q hp hpq hq
    have hq0 : 0 < q := lt_trans hp hpq
    have e1 : interpolateZ p Z_OXYGEN = interpLoop p Z_OXYGEN := by
      refine interpolateZ_eq_interpLoop _ _ (400, 0.9428) ?_ p hp (by linarith)
      rfl
    have e2 : interpolateZ q Z_OXYGEN = interpLoop q Z_OXYGEN := by
      refine interpolateZ_eq_interpLoop _ _ (400, 0.9428) ?_ q hq0 (by linarith)
      rfl
    show interpolateZ q Z_OXYGEN < interpolateZ p Z_OXYGEN
    rw [e1, e2]
    have hred : ∀ r : ℚ, 0 < r → r ≤ 350 →
        interpLoop r Z_OXYGEN = interpLoop r Z_OXYGEN_core := by
      intro r h0 h350
      rw [Z_OXYGEN_decomp]
      exact interpLoop_append _ _ _ _ r Z_OXYGEN_sorted (le_of_lt h0) h350
    rw [hred p hp (by linarith), hred q hq0 hq]
    exact interpLoop_strictAnti _ _ _ p q Z_OXYGEN_core_dec (le_of_lt hp)
      hpq hq

/-- Witness for C6 at concrete pressures 100 and 200 bar. -/
theorem zFactor_monotonicity_witness :
    (0:ℚ) < 100 ∧ (100:ℚ) < 200 ∧ (200:ℚ) ≤ 400 ∧ (200:ℚ) ≤ 350 ∧
    getZNitrogen 100 < getZNitrogen 200 ∧
    getZHelium 100 < getZHelium 200 ∧
    getZOxygen 200 < getZOxygen 100 :=
  ⟨by norm_num, by norm_num, by norm_num, by norm_num,
   zFactor_monotonicity.1 100 200 (by norm_num) (by norm_num) (by norm_num),
   zFactor_monotonicity.2.1 100 200 (by norm_num) (by norm_num) (by norm_num),
   zFactor_monotonicity.2.2 100 200 (by norm_num) (by norm_num) (by norm_num)⟩

/-- Counterexample to C6 as stated: on the sampled 0-400 bar range,
`getZOxygen` increases between 350 and 400 bar, so it is not a decreasing
function of pressure there. -/
theorem zOxygen_not_decreasing_on_full_range :
    (0:ℚ) < 350 ∧ (350:ℚ) < 400 ∧ (400:ℚ) ≤ 400 ∧
    getZOxygen 350 < getZOxygen 400 := by
  refine ⟨by norm_num, by norm_num, by norm_num, ?_⟩
  norm_num [getZOxygen, interpolateZ, interpLoop, Z_OXYGEN]

theorem interpolateZ_clamp_low (f : ℚ × ℚ) (rest : List (ℚ × ℚ)) (p : ℚ)
    (h : p ≤ f.1) : interpolateZ p (f :: rest) = f.2 := by
  rw [interpolateZ_cons, if_pos h]

theorem interpolateZ_clamp_high (l : List (ℚ × ℚ)) (hne : l ≠ []) (p : ℚ)
    (hs : pressureSorted l) (h : (l.getLast hne).1 ≤ p) :
    interpolateZ p l = (l.getLast hne).2 := by
  match l with
  | f :: rest =>
    rw [interpolateZ_cons]
    by_cases hpf : p ≤ f.1
    · rw [if_pos hpf]
      match rest with
      | [] => rfl
      | g :: rest' =>
        exfalso
        have hfl : f.1 < (List.getLast (g :: rest')
            (List.cons_ne_nil g rest')).1 :=
          (List.pairwise_cons.mp hs).1 _ (List.getLast_mem _)
        have hgl : List.getLast (f :: g :: rest') hne =
            List.getLast (g :: rest') (List.cons_ne_nil g rest') :=
          List.getLast_cons _
        rw [hgl] at h
        linarith
    · rw [if_neg hpf, if_pos h]

theorem interpolateZ_sample (l : List (ℚ × ℚ)) (x : ℚ × ℚ)
    (hs : pressureSorted l) (hx : x ∈ l) : interpolateZ x.1 l = x.2 := by
  obtain ⟨l₁, l₂, rfl⟩ := List.append_of_mem hx
  match l₂ with
  | [] =>
    have hne : l₁ ++ [x] ≠ [] := by simp
    have hgl : List.getLast (l₁ ++ [x]) hne = x :=
      List.getLast_append_singleton l₁
    have hc := interpolateZ_clamp_high (l₁ ++ [x]) hne x.1 hs
      (by rw [hgl])
    rw [hc, hgl]
  | y :: l₂' =>
    have habl : List.Pairwise (fun u v : ℚ × ℚ => u.1 < v.1) (x :: y :: l₂') :=
      hs.sublist (List.sublist_append_right l₁ _)
    have hxy : x.1 < y.1 := (List.pairwise_cons.mp habl).1 y (by simp)
    rw [interpolateZ_segment l₁ x y l₂' x.1 hs (le_refl x.1) (le_of_lt hxy),
      sub_self, zero_div, zero_mul, add_zero]

theorem interpolateZ_midpoint (l₁ : List (ℚ × ℚ)) (a b : ℚ × ℚ)
    (l₂ : List (ℚ × ℚ)) (hs : pressureSorted (l₁ ++ a :: b :: l₂)) :
    interpolateZ ((a.1 + b.1) / 2) (l₁ ++ a :: b :: l₂) = (a.2 + b.2) / 2 := by
  have habl : List.Pairwise (fun u v : ℚ × ℚ => u.1 < v.1) (a :: b :: l₂) :=
    hs.sublist (List.sublist_append_right l₁ _)
  have hab : a.1 < b.1 := (List.pairwise_cons.mp habl).1 b (by simp)
  have h1 : a.1 ≤ (a.1 + b.1) / 2 := by linarith
  have h2 : (a.1 + b.1) / 2 ≤ b.1 := by linarith
  rw [interpolateZ_segment l₁ a b l₂ _ hs h1 h2]
  have hne : b.1 - a.1 ≠ 0 := by intro h0; rw [sub_eq_zero] at h0; linarith
  field_simp
  ring

/-- C7: for every table sorted strictly by pressure, `interpolateZ`
(1) clamps to the first Z value at or below the first sample pressure,
(2) clamps to the last Z value at or above the last sample pressure,
(3) returns the linear interpolation on the bracketing segment for any
pressure inside the range, (4) returns exactly the tabulated Z at every
sample pressure, and (5) returns the arithmetic mean of the two
neighbouring Z values at the midpoint of two consecutive samples. -/
theorem interpolateZ_spec :
    (∀ (f : ℚ × ℚ) (rest : List (ℚ × ℚ)) (p : ℚ), p ≤ f.1 →
      interpolateZ p (f :: rest) = f.2) ∧
    (∀ (l : List (ℚ × ℚ)) (hne : l ≠ []) (p : ℚ), pressureSorted l →
      (l.getLast hne).1 ≤ p → interpolateZ p l = (l.getLast hne).2) ∧
    (∀ (l₁ : List (ℚ × ℚ)) (a b : ℚ × ℚ) (l₂ : List (ℚ × ℚ)) (p : ℚ),
      pressureSorted (l₁ ++ a :: b :: l₂) → a.1 ≤ p → p ≤ b.1 →
      interpolateZ p (l₁ ++ a :: b :: l₂) =
        a.2 + (p - a.1) / (b.1 - a.1) * (b.2 - a.2)) ∧
    (∀ (l : List (ℚ × ℚ)) (x : ℚ × ℚ), pressureSorted l → x ∈ l →
      interpolateZ x.1 l = x.2) ∧
    (∀ (l₁ : List (ℚ × ℚ)) (a b : ℚ × ℚ) (l₂ : List (ℚ × ℚ)),
      pressureSorted (l₁ ++ a :: b :: l₂) →
      interpolateZ ((a.1 + b.1) / 2) (l₁ ++ a :: b :: l₂) =
        (a.2 + b.2) / 2) :=
  ⟨interpolateZ_clamp_low, interpolateZ_clamp_high, interpolateZ_segment,
   interpolateZ_sample, interpolateZ_midpoint⟩

/-- Witness for C7 on the helium table: clamping below 0 bar and above
400 bar, linear interpolation inside a segment, the exact value at the
175 bar sample, and the arithmetic mean at the 350/400 midpoint. -/
theorem interpolateZ_spec_witness :
    interpolateZ (-5) Z_HELIUM = 1.0 ∧
    interpolateZ 500 Z_HELIUM = 1.3038 ∧
    interpolateZ 160 Z_HELIUM =
      1.09 + (160 - 150) / (175 - 150) * (1.1091 - 1.09) ∧
    interpolateZ 175 Z_HELIUM = 1.1091 ∧
    interpolateZ ((350 + 400) / 2) Z_HELIUM = (1.2574 + 1.3038) / 2 := by
  have hsorted : pressureSorted Z_HELIUM :=
    tableInc_pressureSorted _ Z_HELIUM_inc
  refine ⟨interpolateZ_spec.1 _ _ (-5) (by norm_num), ?_, ?_, ?_, ?_⟩
  · have h := interpolateZ_spec.2.1 Z_HELIUM (by simp [Z_HELIUM]) 500 hsorted
      (by norm_num [Z_HELIUM])
    exact h.trans (by norm_num [Z_HELIUM])
  · exact interpolateZ_spec.2.2.1
      [(0, 1.0), (10, 1.0044), (20, 1.0091), (30, 1.014), (40, 1.0188),
       (50, 1.0236), (75, 1.038), (100, 1.0548), (125, 1.0722)]
      (150, 1.09) (175, 1.1091)
      [(200, 1.1285), (225, 1.1488), (250, 1.1695), (275, 1.1909),
       (300, 1.2126), (350, 1.2574), (400, 1.3038)]
      160 hsorted (by norm_num) (by norm_num)
  · exact interpolateZ_spec.2.2.2.1 Z_HELIUM (175, 1.1091) hsorted
      (by norm_num [Z_HELIUM])
  · exact interpolateZ_spec.2.2.2.2
      [(0, 1.0), (10, 1.0044), (20, 1.0091), (30, 1.014), (40, 1.0188),
       (50, 1.0236), (75, 1.038), (100, 1.0548), (125, 1.0722), (150, 1.09),
       (175, 1.1091), (200, 1.1285), (225, 1.1488), (250, 1.1695),
       (275, 1.1909), (300, 1.2126)]
      (350, 1.2574) (400, 1.3038) [] hsorted

theorem getFractions_init (v p o2 he : ℚ) (steps : List BlendingStep)
    (gu : List (String × ℚ)) (h1 : 0 ≤ o2) (h2 : 0 ≤ he)
    (h3 : o2 + he ≤ 100) (hp : 1/10000 < p) :
    getFractions ⟨v, p, (gasToMoleEquivalents o2 he p).o2,
      (gasToMoleEquivalents o2 he p).he, (gasToMoleEquivalents o2 he p).n2,
      steps, gu⟩ = ⟨o2 / 100, he / 100, (100 - o2 - he) / 100⟩ := by
  unfold getFractions
  rw [if_neg (not_le.mpr hp),
    moleEq_roundTrip o2 he p h1 h2 h3 (by linarith)]

theorem trigA_skip (st : BlendState) (tgt : MoleEquivalents) (fr : Fractions)
    (s : Bool × ℚ) (h1 : tgt.he = st.heM) (h2 : tgt.n2 = st.n2M)
    (h3 : tgt.o2 = st.o2M) : trigA st tgt fr s = s := by
  simp only [trigA]
  rw [h1, h2, h3, sub_self]
  norm_num

theorem trigB_skip (st : BlendState) (t : TargetGas) (tgt : MoleEquivalents)
    (fr : Fractions) (pureHe : Option Gas) (airGases trimixGases : List Gas)
    (s : Bool × ℚ) (hfro : fr.o2 * 100 = t.o2) :
    trigB st t tgt fr pureHe airGases trimixGases s = s := by
  simp only [trigB]
  rw [hfro, if_neg (by linarith : ¬(t.o2 + 1 < t.o2))]

theorem trigC_skip (st : BlendState) (t : TargetGas) (tgt : MoleEquivalents)
    (fr : Fractions) (s : Bool × ℚ) (hfrh : fr.he * 100 = t.he) :
    trigC st t tgt fr s = s := by
  simp only [trigC]
  rw [hfrh, if_neg]
  rintro ⟨hlt, _⟩
  linarith

theorem trigD_skip (st : BlendState) (t : TargetGas) (tgt : MoleEquivalents)
    (hg : Option Gas) (s : Bool × ℚ) (h : tgt.he = st.heM) :
    trigD st t tgt hg s = s := by
  simp only [trigD]
  rw [h, sub_self, if_neg]
  rintro ⟨hlt, _⟩
  norm_num at hlt

theorem trigE_skip (st : BlendState) (t : TargetGas) (tgt : MoleEquivalents)
    (fr : Fractions) (pureHe pureO2 : Option Gas) (airGases : List Gas)
    (hg : Option Gas) (s : Bool × ℚ) (h1 : tgt.he = st.heM)
    (h2 : fr.o2 * 100 = t.o2) :
    trigE st t tgt fr pureHe pureO2 airGases hg s = s := by
  cases hg with
  | none => rfl
  | some g =>
    simp only [trigE]
    rw [h1, sub_self, h2, if_neg]
    rintro ⟨_, hor⟩
    rcases hor with h | h
    · norm_num at h
    · linarith

theorem executeDrain_false (st : BlendState) (x : ℚ) :
    executeDrain st (false, x) = st := rfl

theorem heliumStage_skip (st : BlendState) (tgt : MoleEquivalents)
    (gs : List Gas) (h : tgt.he - st.heM ≤ 1/10) :
    heliumStage st tgt gs = st := by
  unfold heliumStage
  rw [if_neg (not_lt.mpr h)]

theorem toppingStage_skip (st : BlendState) (t : TargetGas)
    (tgt : MoleEquivalents) (gs : List Gas)
    (h : t.pressure - st.pressure ≤ 1/10) :
    toppingStage st t tgt gs = st := by
  unfold toppingStage
  rw [if_neg (not_lt.mpr h)]

theorem planner_self (s : TankState) (t : TargetGas) (gs : List Gas)
    (ho2 : s.o2 = t.o2) (hhe : s.he = t.he) (hp : s.pressure = t.pressure)
    (h1 : 0 ≤ t.o2) (h2 : 0 ≤ t.he) (h3 : t.o2 + t.he ≤ 100)
    (hpp : 1/10000 < t.pressure) :
    planner s t gs = ⟨s.volume, t.pressure,
      (gasToMoleEquivalents t.o2 t.he t.pressure).o2,
      (gasToMoleEquivalents t.o2 t.he t.pressure).he,
      (gasToMoleEquivalents t.o2 t.he t.pressure).n2, [], []⟩ := by
  have hfr := getFractions_init s.volume t.pressure t.o2 t.he [] [] h1 h2 h3 hpp
  simp only [planner]
  rw [ho2, hhe, hp]
  simp only [drainDecision]
  rw [hfr]
  rw [trigA_skip _ _ _ _ rfl rfl rfl]
  rw [trigB_skip _ _ _ _ _ _ _ _ (by field_simp)]
  rw [trigC_skip _ _ _ _ _ (by field_simp)]
  rw [trigD_skip _ _ _ _ _ rfl]
  rw [trigE_skip _ _ _ _ _ _ _ _ _ rfl (by field_simp)]
  rw [executeDrain_false]
  rw [heliumStage_skip _ _ gs (by
    show (gasToMoleEquivalents t.o2 t.he t.pressure).he -
      (gasToMoleEquivalents t.o2 t.he t.pressure).he ≤ 1/10
    simp)]
  rw [toppingStage_skip _ t _ gs (by
    show t.pressure - t.pressure ≤ 1/10
    simp)]

/-- C9 (amended): if the starting tank state equals the target exactly
(composition and pressure), with a valid nonnegative composition and a
pressure above the planner's 0.0001-bar dead zone, `calculateBlendingSteps`
returns zero steps and success = true, for any gas catalog.  (The original
"within tolerance" claim fails: a within-tolerance but unequal start can
produce steps, and a zero-pressure start reports success = false.) -/
theorem blendingSteps_idempotent (s : TankState) (t : TargetGas)
    (gs : List Gas) (ho2 : s.o2 = t.o2) (hhe : s.he = t.he)
    (hp : s.pressure = t.pressure) (h1 : 0 ≤ t.o2) (h2 : 0 ≤ t.he)
    (h3 : t.o2 + t.he ≤ 100) (hpp : 1/10000 < t.pressure) :
    (calculateBlendingSteps s t gs).steps = [] ∧
    (calculateBlendingSteps s t gs).success = true := by
  have hplan := planner_self s t gs ho2 hhe hp h1 h2 h3 hpp
  have hfr := getFractions_init s.volume t.pressure t.o2 t.he [] [] h1 h2 h3 hpp
  have hfm : blendFinalMix (⟨s.volume, t.pressure,
      (gasToMoleEquivalents t.o2 t.he t.pressure).o2,
      (gasToMoleEquivalents t.o2 t.he t.pressure).he,
      (gasToMoleEquivalents t.o2 t.he t.pressure).n2, [], []⟩ : BlendState) =
      ⟨roundTo t.o2 1, roundTo t.he 1, roundTo t.pressure 1⟩ := by
    simp only [blendFinalMix, toPercentLabel]
    rw [hfr]
    have h100 : (100:ℚ) ≠ 0 := by norm_num
    simp only []
    rw [div_mul_cancel₀ t.o2 h100, div_mul_cancel₀ t.he h100]
  have hb1 := roundTo_one_abs_le t.o2
  have hb2 := roundTo_one_abs_le t.he
  have hb3 := roundTo_one_abs_le t.pressure
  simp only [calculateBlendingSteps]
  rw [if_neg (not_lt.mpr h3), hplan, hfm]
  rw [if_neg]
  · exact ⟨rfl, rfl⟩
  · rintro (h | h | h)
    · rw [show (⟨roundTo t.o2 1, roundTo t.he 1, roundTo t.pressure 1⟩ :
        FinalMix).o2 = roundTo t.o2 1 from rfl] at h
      linarith
    · rw [show (⟨roundTo t.o2 1, roundTo t.he 1, roundTo t.pressure 1⟩ :
        FinalMix).he = roundTo t.he 1 from rfl] at h
      linarith
    · rw [show (⟨roundTo t.o2 1, roundTo t.he 1, roundTo t.pressure 1⟩ :
        FinalMix).pressure = roundTo t.pressure 1 from rfl] at h
      linarith

/-- Witness for C9 at a concrete input: trimix 18/45 at 200 bar, target
identical, standard-catalog-free. -/
theorem blendingSteps_idempotent_witness :
    (calculateBlendingSteps ⟨12, 18, 45, 200⟩ ⟨18, 45, 200⟩ []).steps = [] ∧
    (calculateBlendingSteps ⟨12, 18, 45, 200⟩ ⟨18, 45, 200⟩ []).success = true :=
  blendingSteps_idempotent ⟨12, 18, 45, 200⟩ ⟨18, 45, 200⟩ [] rfl rfl rfl
    (by norm_num) (by norm_num) (by norm_num) (by norm_num)

/-- Counterexample to C9 as stated ("within tolerance ⇒ zero steps and
success"): (1) a start identical to the target but at 0 bar (within every
tolerance) yields success = false, and (2) a start within tolerance of the
target (same mix, pressure 198.5 vs 200, |Δp| = 1.5 ≤ 2) yields a non-empty
step list. -/
theorem blendingSteps_not_idempotent_within_tolerance :
    (|(18:ℚ) - 18| ≤ 1 ∧ |(45:ℚ) - 45| ≤ 1 ∧ |(0:ℚ) - 0| ≤ 2 ∧
      (calculateBlendingSteps ⟨12, 18, 45, 0⟩ ⟨18, 45, 0⟩ []).success = false) ∧
    (|(18:ℚ) - 18| ≤ 1 ∧ |(45:ℚ) - 45| ≤ 1 ∧ |(397/2:ℚ) - 200| ≤ 2 ∧
      (calculateBlendingSteps ⟨12, 18, 45, 397/2⟩ ⟨18, 45, 200⟩
        [⟨"O2", 100, 0⟩]).steps ≠ []) := by
  refine ⟨⟨by norm_num, by norm_num, by norm_num [abs_le], ?_⟩,
    ⟨by norm_num, by norm_num, by norm_num [abs_le], ?_⟩⟩ <;>
    norm_num [calculateBlendingSteps, planner, drainDecision, trigA, trigB,
      trigC, trigD, trigE, executeDrain, heliumStage, toppingStage,
      recordGasAddition, addGasToTank, addGasLoop, gasToMoleEquivalents,
      moleEquivalentsToGas, calculateMixtureZ, getZNitrogen, getZOxygen,
      getZHelium, interpolateZ, interpLoop, Z_NITROGEN, Z_OXYGEN, Z_HELIUM,
      getFractions, findPureHe, findPureO2, airGasesOf, trimixGasesOf,
      sortGasBy, heGasForCalcOf, errLt, roundTo, jsRound, toPercentLabel,
      blendFinalMix, List.find?, List.filter, abs_lt, lt_abs]

end ScubaTools
